import Mathlib

/-!
# UAVCAN node control loop

A shallow embedding of `src/modules/uavcan/uavcan_main.cpp`: the subscription
reconciliation (`UavcanNode::subscribe`), one pass of the `while` loop of
`UavcanNode::run`, `arm_actuators`, `pwm_ioctl`, `UavcanNode::start` and the
application entry point `uavcan_main`.

Conventions of the embedding.

* C arrays are maps from the index to the element (`Nat → α`).
* `uint32_t` values are natural numbers; complement is taken on 32 bits.
* Calls into the operating system and into the mixer library are not in this
  file of the repository. Their results are supplied by an environment
  record, and every such call is appended to the `calls` trace of the node.
* `float` values are IEEE-754 binary32 values given by their three bit fields;
  only classification and comparison are used by the source, both exact.
-/

namespace Uavcan

/-! ## binary32 values -/

/-- An IEEE-754 binary32 value: sign bit, biased exponent (8 bits) and
fraction (23 bits). -/
structure Float32 where
  sign : Bool
  expo : Nat
  mant : Nat
  expo_lt : expo < 256
  mant_lt : mant < 8388608
deriving DecidableEq

namespace Float32

/-- Not-a-number: exponent all ones, fraction non-zero. -/
def isNaN (v : Float32) : Bool := v.expo == 255 && v.mant != 0

/-- Plus or minus infinity: exponent all ones, fraction zero. -/
def isInf (v : Float32) : Bool := v.expo == 255 && v.mant == 0

/-- The C classification `isfinite`: neither NaN nor an infinity. -/
def isfinite (v : Float32) : Bool := v.expo != 255

/-- The value of a finite float multiplied by `2 ^ 149`, an exact integer
(subnormals have exponent field 0 and no hidden bit).  On the two infinities
the same formula gives `± 2 ^ 277`, beyond every finite value, so the integer
orders all non-NaN values as IEEE-754 does. -/
def scaled (v : Float32) : Int :=
  let m : Nat := if v.expo = 0 then v.mant else 8388608 + v.mant
  let e : Nat := if v.expo = 0 then 0 else v.expo - 1
  if v.sign then - ((m * 2 ^ e : Nat) : Int) else ((m * 2 ^ e : Nat) : Int)

/-- The rational value of a finite float. -/
def toRat (v : Float32) : ℚ := (v.scaled : ℚ) / 2 ^ 149

/-- The C comparison `a < b`: false as soon as one side is NaN. -/
def lt (a b : Float32) : Bool := !a.isNaN && !b.isNaN && decide (a.scaled < b.scaled)

/-- The C comparison `a > b`. -/
def gt (a b : Float32) : Bool := lt b a

/-- The literal `-1.0f`. -/
def negOne : Float32 := ⟨true, 127, 0, by decide, by decide⟩

/-- The literal `1.0f`. -/
def one : Float32 := ⟨false, 127, 0, by decide, by decide⟩

/-- The value `0.0f`. -/
def zero : Float32 := ⟨false, 0, 0, by decide, by decide⟩

/-- The value `0.5f`. -/
def half : Float32 := ⟨false, 126, 0, by decide, by decide⟩

/-- The float nearest to 2.3 (bit pattern 0x40133333). -/
def twoPointThree : Float32 := ⟨false, 128, 1258291, by decide, by decide⟩

/-- The value `5.0f`. -/
def five : Float32 := ⟨false, 129, 2097152, by decide, by decide⟩

/-- The value `-5.0f`. -/
def negFive : Float32 := ⟨true, 129, 2097152, by decide, by decide⟩

/-- A quiet NaN (bit pattern 0x7fc00000). -/
def nan : Float32 := ⟨false, 255, 4194304, by decide, by decide⟩

/-- Plus infinity. -/
def posInf : Float32 := ⟨false, 255, 0, by decide, by decide⟩

/-- Minus infinity. -/
def negInf : Float32 := ⟨true, 255, 0, by decide, by decide⟩

end Float32

/-! ## Constants of headers that are not part of this file -/

/-- Modelled from the spec: the number of actuator control groups, a constant
of the uORB header `actuator_controls.h`, which is not in this source file.
The spec gives 4, and the constructor fills exactly the topics 0 to 3. -/
def NUM_ACTUATOR_CONTROL_GROUPS : Nat := 4

/-- The `POLLIN` event bit of `poll.h`. -/
def POLLIN : Nat := 1

/-- The success code `OK`. -/
def OK : Int := 0

/-- The errno value `ENOMEM`. -/
def ENOMEM : Int := 12

/-- The errno value `EINVAL`. -/
def EINVAL : Int := 22

/-- The errno value `ENOTTY`. -/
def ENOTTY : Int := 25

/-- Bitwise complement of a `uint32_t`. -/
def bnot32 (x : Nat) : Nat := 4294967295 ^^^ (x % 4294967296)

/-- Array store `a[i] = v`. -/
def setAt {α : Type} (a : Nat → α) (i : Nat) (v : α) : Nat → α :=
  fun j => if j = i then v else a j

/-! ## Data -/

/-- One entry of the poll set (`struct pollfd`). -/
structure pollfd where
  fd : Int
  events : Nat
  revents : Nat
deriving DecidableEq

/-- The control vector of one actuator control group. -/
structure actuator_controls_s where
  timestamp : Nat
  control : Nat → Float32

/-- The armed-state record. -/
structure actuator_armed_s where
  armed : Bool
  lockdown : Bool
deriving DecidableEq

/-- The output vector: a count, a timestamp and the channel values. -/
structure actuator_outputs_s where
  timestamp : Nat
  noutputs : Nat
  output : Nat → Float32

/-- The external calls the node makes, in the order of the `calls` trace. -/
inductive Call where
  | orb_subscribe (group : Nat)
  | close (fd : Int)
  | poll (nfds : Nat)
  | orb_copy (group : Nat) (fd : Int)
  | mix (space : Nat)
  | log_poll_error
  | print_outputs (armed : Bool)
  | spin
  | sleep
deriving DecidableEq

/-- The operations of the mixer library (`systemlib/mixer`), whose code is not
in this source file.  `M` is the type of a `MixerGroup` object.

* `create` is `new MixerGroup(control_callback, _controls)`; `none` is a
  failed allocation.
* `load_from_buf m buf buflen` gives the return value and the mixer after the
  call.
* `groups_required m r` is the value of the bitmask `r` after
  `m.groups_required(r)`.
* `mix m cb space` gives the values that `m.mix(out, space)` writes to
  `out[0]`, `out[1]`, ...; the return value of `mix` is their number. `cb` is
  the control callback, through which the mixer reads its inputs. -/
structure MixerLib (M : Type) where
  create : Option M
  load_from_buf : M → List Char → Nat → Int × M
  groups_required : M → Nat → Nat
  mix : M → (Nat → Nat → Float32) → Nat → List Float32

/-- The members of `UavcanNode` that the modelled functions read or write,
with the trace of external calls. -/
structure UavcanNode (M : Type) where
  _task : Int
  _task_should_exit : Bool
  _armed_sub : Int
  _armed : actuator_armed_s
  _is_armed : Bool
  _output_count : Nat
  _mixers : Option M
  _groups_required : Nat
  _groups_subscribed : Nat
  _control_subs : Nat → Int
  _controls : Nat → actuator_controls_s
  _poll_fds : Nat → pollfd
  _poll_fds_num : Nat
  calls : List Call

/-! ## `UavcanNode::subscribe` and the reconciliation step -/

/-- The body of the `for` loop of `subscribe()` for group `i` (lines 362-376).
`acquire i` is the handle that `orb_subscribe(_control_topics[i])` returns. -/
def subscribe_body {M : Type} (acquire : Nat → Int) (sub_groups unsub_groups : Nat)
    (s : UavcanNode M) (i : Nat) : UavcanNode M :=
  let s1 : UavcanNode M :=
    if sub_groups &&& (1 <<< i) ≠ 0 then
      { s with _control_subs := setAt s._control_subs i (acquire i),
               calls := s.calls ++ [Call.orb_subscribe i] }
    else s
  let s2 : UavcanNode M :=
    if unsub_groups &&& (1 <<< i) ≠ 0 then
      { s1 with _control_subs := setAt s1._control_subs i (-1),
                calls := s1.calls ++ [Call.close (s1._control_subs i)] }
    else s1
  if s2._control_subs i > 0 then
    { s2 with _poll_fds := setAt s2._poll_fds s2._poll_fds_num
                { s2._poll_fds s2._poll_fds_num with fd := s2._control_subs i, events := POLLIN },
              _poll_fds_num := s2._poll_fds_num + 1 }
  else s2

/-- The loop of `subscribe()` over the groups `0 .. n-1`. -/
def subscribe_loop {M : Type} (acquire : Nat → Int) (sub_groups unsub_groups : Nat)
    (n : Nat) (s : UavcanNode M) : UavcanNode M :=
  (List.range n).foldl (subscribe_body acquire sub_groups unsub_groups) s

/-- The function `UavcanNode::subscribe` (lines 354-378). -/
def subscribe {M : Type} (acquire : Nat → Int) (s : UavcanNode M) : UavcanNode M :=
  let sub_groups := s._groups_required &&& bnot32 s._groups_subscribed
  let unsub_groups := s._groups_subscribed &&& bnot32 s._groups_required
  subscribe_loop acquire sub_groups unsub_groups NUM_ACTUATOR_CONTROL_GROUPS
    { s with _poll_fds_num := 0 }

/-- The reconciliation step at the head of the loop of `run()` (lines 223-226). -/
def reconcile {M : Type} (acquire : Nat → Int) (s : UavcanNode M) : UavcanNode M :=
  if s._groups_subscribed ≠ s._groups_required then
    { subscribe acquire s with _groups_subscribed := s._groups_required }
  else s

/-! ## Polling and input aggregation -/

/-- What `poll` does in one call: it fails, or it stores a `revents` word in
every entry it was given. -/
inductive PollOutcome where
  | error (errno : Int)
  | done (revents : Nat → Nat)

/-- The call `poll(fds, nfds, 5)` of line 228: on failure the return value is
`-1` and the entries are untouched; otherwise entry `k < nfds` receives its
`revents` and the return value is the number of entries with a non-zero
`revents` (0 on timeout). -/
def poll (r : PollOutcome) (fds : Nat → pollfd) (nfds : Nat) : Int × (Nat → pollfd) :=
  match r with
  | PollOutcome.error _ => (-1, fds)
  | PollOutcome.done rev =>
    ((((List.range nfds).filter (fun k => rev k != 0)).length : Nat),
     fun k => if k < nfds then { fds k with revents := rev k } else fds k)

/-- The body of the input loop of `run()` for group `i` (lines 243-248); the
state is the node and the running `poll_id`.  `msg i` is the control vector
that `orb_copy` delivers for group `i`. -/
def fetch_body {M : Type} (msg : Nat → actuator_controls_s)
    (st : UavcanNode M × Nat) (i : Nat) : UavcanNode M × Nat :=
  let s := st.1
  let poll_id := st.2
  if s._control_subs i > 0 then
    let s1 : UavcanNode M :=
      if (s._poll_fds poll_id).revents &&& POLLIN ≠ 0 then
        { s with _controls := setAt s._controls i (msg i),
                 calls := s.calls ++ [Call.orb_copy i (s._control_subs i)] }
      else s
    (s1, poll_id + 1)
  else (s, poll_id)

/-- The input loop of `run()` over the groups `0 .. n-1`, from `poll_id = 0`. -/
def fetch_loop {M : Type} (msg : Nat → actuator_controls_s) (n : Nat)
    (s : UavcanNode M) : UavcanNode M × Nat :=
  (List.range n).foldl (fetch_body msg) (s, 0)

/-- The function `UavcanNode::control_callback` (lines 316-326): the input of a control
group and index, read from the buffered control vectors. -/
def control_callback (controls : Nat → actuator_controls_s)
    (control_group control_index : Nat) : Float32 :=
  (controls control_group).control control_index

/-! ## Mixing and the safety clamp -/

/-- The condition of the last-resort check (lines 265-267). -/
def out_of_band (v : Float32) : Bool :=
  !v.isfinite || v.lt Float32.negOne || v.gt Float32.one

/-- The result of the check on one channel value (lines 265-274). -/
def clamp_value (v : Float32) : Float32 :=
  if out_of_band v then Float32.negOne else v

/-- The body of the actuator loop for channel `i` (lines 263-275). -/
def clamp_body (o : actuator_outputs_s) (i : Nat) : actuator_outputs_s :=
  if out_of_band (o.output i) then { o with output := setAt o.output i Float32.negOne } else o

/-- The actuator loop (lines 263-275), over the channels below `noutputs`. -/
def clamp_outputs (o : actuator_outputs_s) : actuator_outputs_s :=
  (List.range o.noutputs).foldl clamp_body o

/-- The store of the mixer results into `outputs.output` (line 259). -/
def write_outputs (vals : List Float32) (out : Nat → Float32) : Nat → Float32 :=
  fun i => vals.getD i (out i)

/-- The block "can we mix?" of `run()` (lines 252-285). -/
def mix_block {M : Type} (lib : MixerLib M) (now : Nat)
    (s : UavcanNode M) (outputs : actuator_outputs_s) : UavcanNode M × actuator_outputs_s :=
  match s._mixers with
  | none => (s, outputs)
  | some m =>
    let num_outputs_max := 8
    let vals := lib.mix m (control_callback s._controls) num_outputs_max
    let o1 : actuator_outputs_s :=
      { timestamp := now, noutputs := vals.length, output := write_outputs vals outputs.output }
    let o2 := clamp_outputs o1
    ({ s with calls := s.calls ++ [Call.mix num_outputs_max, Call.print_outputs s._is_armed] }, o2)

/-! ## Arming -/

/-- The result of `arm_actuators`: the returned code and the node after the
call. -/
structure ArmResult (M : Type) where
  node : UavcanNode M
  ret : Int

/-- The function `UavcanNode::arm_actuators` (lines 340-352).  The local
`changed` guards a block that holds only a comment, so both branches leave
the node as the assignment of line 345 made it; the function returns `OK`. -/
def arm_actuators {M : Type} (s : UavcanNode M) (arm : Bool) : ArmResult M :=
  let changed := (s._is_armed != arm)
  let s1 : UavcanNode M := { s with _is_armed := arm }
  let s2 : UavcanNode M := if changed then s1 else s1
  { node := s2, ret := OK }

/-- The arm update of the loop once the record is known to be updated
(lines 293-298). -/
def arm_update {M : Type} (s : UavcanNode M) (rec : actuator_armed_s) : ArmResult M :=
  let s1 : UavcanNode M := { s with _armed := rec }
  let set_armed := s1._armed.armed && !s1._armed.lockdown
  arm_actuators s1 set_armed

/-! ## One pass of the loop of `run()` -/

/-- What the outside world supplies during one pass of the loop. -/
structure TickEnv where
  orb_subscribe : Nat → Int
  poll : PollOutcome
  orb_copy : Nat → actuator_controls_s
  hrt_absolute_time : Nat
  armed_updated : Bool
  armed_msg : actuator_armed_s
  spin : Int

/-- The tail of a pass: arming check and spin (lines 288-308). -/
def run_tail {M : Type} (env : TickEnv) (s : UavcanNode M) : UavcanNode M :=
  let s1 := if env.armed_updated then (arm_update s env.armed_msg).node else s
  let s2 : UavcanNode M := { s1 with calls := s1.calls ++ [Call.spin] }
  if env.spin < 0 then { s2 with calls := s2.calls ++ [Call.sleep] } else s2

/-- The head of a pass: reconciliation and the call of `poll` (lines 223-228).
The result is the return value of `poll` and the node after it. -/
def poll_step {M : Type} (env : TickEnv) (s : UavcanNode M) : Int × UavcanNode M :=
  let s1 := reconcile env.orb_subscribe s
  let p := poll env.poll s1._poll_fds s1._poll_fds_num
  (p.1, { s1 with _poll_fds := p.2, calls := s1.calls ++ [Call.poll s1._poll_fds_num] })

/-- The node after the input loop of a pass (lines 241-249), run on the node
that `poll_step` leaves. -/
def fetch_step {M : Type} (env : TickEnv) (s : UavcanNode M) : UavcanNode M :=
  (fetch_loop env.orb_copy NUM_ACTUATOR_CONTROL_GROUPS (poll_step env s).2).1

/-- One pass of the `while` loop of `UavcanNode::run` (lines 223-308).  The
local `outputs` of `run()` lives across passes and is threaded through.  A
negative `poll` result ends the pass at once (`continue`); a zero result
skips the input loop and the mixing block. -/
def run_iteration {M : Type} (lib : MixerLib M) (env : TickEnv)
    (s : UavcanNode M) (outputs : actuator_outputs_s) : UavcanNode M × actuator_outputs_s :=
  let ps := poll_step env s
  let ret := ps.1
  if ret < 0 then
    ({ ps.2 with calls := ps.2.calls ++ [Call.log_poll_error] }, outputs)
  else if ret = 0 then
    (run_tail env ps.2, outputs)
  else
    let r := mix_block lib env.hrt_absolute_time (fetch_step env s) outputs
    (run_tail env r.1, r.2)

/-! ## `UavcanNode::pwm_ioctl` -/

/-- The commands `pwm_ioctl` distinguishes; `other` is every remaining code. -/
inductive IoctlCmd where
  | PWM_SERVO_ARM
  | PWM_SERVO_SET_ARM_OK
  | PWM_SERVO_CLEAR_ARM_OK
  | PWM_SERVO_SET_FORCE_SAFETY_OFF
  | PWM_SERVO_DISARM
  | MIXERIOCGETOUTPUTCOUNT
  | MIXERIOCRESET
  | MIXERIOCLOADBUF
  | other
deriving DecidableEq

/-- The result of `pwm_ioctl`: the returned code, the node, and the value
stored through `arg` by `MIXERIOCGETOUTPUTCOUNT`. -/
structure IoctlResult (M : Type) where
  ret : Int
  node : UavcanNode M
  count_out : Option Nat

/-- The C function `strnlen` on a string given by its characters before the
terminating NUL. -/
def strnlen (buf : List Char) (maxlen : Nat) : Nat := min buf.length maxlen

/-- The mixer object on which `MIXERIOCLOADBUF` works: the active one, or a
newly allocated one when none is active (lines 419-420). -/
def loadbuf_mixer {M : Type} (lib : MixerLib M) (s : UavcanNode M) : Option M :=
  match s._mixers with
  | none => lib.create
  | some m => some m

/-- The function `UavcanNode::pwm_ioctl` (lines 380-453).  `buf` is the text that `arg`
points to for `MIXERIOCLOADBUF`. -/
def pwm_ioctl {M : Type} (lib : MixerLib M) (s : UavcanNode M) (cmd : IoctlCmd)
    (buf : List Char) : IoctlResult M :=
  match cmd with
  | IoctlCmd.PWM_SERVO_ARM =>
    { ret := OK, node := (arm_actuators s true).node, count_out := none }
  | IoctlCmd.PWM_SERVO_SET_ARM_OK => { ret := OK, node := s, count_out := none }
  | IoctlCmd.PWM_SERVO_CLEAR_ARM_OK => { ret := OK, node := s, count_out := none }
  | IoctlCmd.PWM_SERVO_SET_FORCE_SAFETY_OFF => { ret := OK, node := s, count_out := none }
  | IoctlCmd.PWM_SERVO_DISARM =>
    { ret := OK, node := (arm_actuators s false).node, count_out := none }
  | IoctlCmd.MIXERIOCGETOUTPUTCOUNT =>
    { ret := OK, node := s, count_out := some s._output_count }
  | IoctlCmd.MIXERIOCRESET =>
    match s._mixers with
    | some _ =>
      { ret := OK, node := { s with _mixers := none, _groups_required := 0 }, count_out := none }
    | none => { ret := OK, node := s, count_out := none }
  | IoctlCmd.MIXERIOCLOADBUF =>
    let buflen := strnlen buf 1024
    let s1 : UavcanNode M := { s with _mixers := loadbuf_mixer lib s }
    match s1._mixers with
    | none =>
      { ret := -ENOMEM, node := { s1 with _groups_required := 0 }, count_out := none }
    | some m =>
      let r := lib.load_from_buf m buf buflen
      if r.1 ≠ 0 then
        { ret := -EINVAL, node := { s1 with _mixers := none, _groups_required := 0 },
          count_out := none }
      else
        { ret := r.1,
          node := { s1 with _mixers := some r.2,
                            _groups_required := lib.groups_required r.2 s1._groups_required },
          count_out := none }
  | IoctlCmd.other => { ret := -ENOTTY, node := s, count_out := none }

/-! ## `UavcanNode::start` -/

/-- The statics that `start` reads and writes: the singleton pointer and the
function-local flag `can_initialized`. -/
structure Globals (M : Type) where
  _instance : Option (UavcanNode M)
  can_initialized : Bool

/-- What the outside world answers during one call of `start`: the result of
`can.init(bitrate)`, the storage that `new` returns (`none` when out of memory), the
results of `CDev::init` and of `_node.start()` for the node identifier, the
result of
`task_spawn_cmd`, and `errno` after it. -/
structure StartEnv (M : Type) where
  can_init : Nat → Int
  alloc : Option (UavcanNode M)
  cdev_init : Int
  node_start : Int → Int
  task_spawn_cmd : Int
  errno : Int

/-- The constructor (lines 62-80), on the storage `raw`: the members of its
initialiser list are set, the others keep what the header gives them. -/
def UavcanNode.construct {M : Type} (raw : UavcanNode M) : UavcanNode M :=
  { raw with
    _task := 0,
    _task_should_exit := false,
    _armed_sub := -1,
    _is_armed := false,
    _output_count := 0,
    _controls := fun _ => { timestamp := 0, control := fun _ => Float32.zero },
    _poll_fds := fun _ => { fd := 0, events := 0, revents := 0 } }

/-- The function `UavcanNode::init` (lines 180-206), as the code it returns. -/
def UavcanNode.init {M : Type} (env : StartEnv M) (node_id : Int) : Int :=
  if env.cdev_init ≠ OK then env.cdev_init else env.node_start node_id

/-- The effect of the destructor (lines 82-109) on the statics: it ends with
`_instance = nullptr`. -/
def UavcanNode.destruct {M : Type} (g : Globals M) : Globals M :=
  { g with _instance := none }

/-- The function `UavcanNode::start` (lines 111-178): the returned code and the statics
after the call. -/
def UavcanNode.start {M : Type} (env : StartEnv M) (g : Globals M)
    (node_id : Int) (bitrate : Nat) : Int × Globals M :=
  match g._instance with
  | some _ => (-1, g)
  | none =>
    if g.can_initialized = false ∧ env.can_init bitrate < 0 then (env.can_init bitrate, g)
    else
      let g1 : Globals M := { g with can_initialized := true }
      match env.alloc with
      | none => (-1, { g1 with _instance := none })
      | some raw =>
        let g2 : Globals M := { g1 with _instance := some (UavcanNode.construct raw) }
        let node_init_res := UavcanNode.init env node_id
        if node_init_res < 0 then
          let g2d : Globals M := UavcanNode.destruct g2
          (node_init_res, { g2d with _instance := none })
        else
          let spawned : UavcanNode M :=
            { UavcanNode.construct raw with _task := env.task_spawn_cmd }
          let g3 : Globals M := { g2 with _instance := some spawned }
          if env.task_spawn_cmd < 0 then (-env.errno, g3)
          else (OK, g3)

/-! ## The application entry point -/

/-- The largest node identifier, `uavcan::NodeID::Max` of the libuavcan
headers. -/
def NodeID_Max : Int := 127

/-- The test `uavcan::NodeID(v).isUnicast()` of the libuavcan headers: a valid
identifier other than the broadcast identifier 0. -/
def NodeID_isUnicast (v : Int) : Bool := decide (0 < v) && decide (v ≤ NodeID_Max)

/-- White space as the C function `isspace` sees it: blank, tab, line feed,
vertical tab, form feed, carriage return. -/
def isspace (c : Char) : Bool :=
  c.toNat == 32 || (9 ≤ c.toNat && c.toNat ≤ 13)

/-- The number written by the leading decimal digits of a text. -/
def leading_digits : List Char → Nat → Nat
  | [], acc => acc
  | c :: cs, acc =>
    if 48 ≤ c.toNat ∧ c.toNat ≤ 57 then leading_digits cs (acc * 10 + (c.toNat - 48)) else acc

/-- The number that a text writes in the way of `strtol` with base 10: leading
white space, an optional sign, then decimal digits. -/
def parse_decimal (text : String) : Int :=
  match text.toList.dropWhile isspace with
  | [] => 0
  | c :: cs =>
    if c.toNat = 45 then - ((leading_digits cs 0 : Nat) : Int)
    else if c.toNat = 43 then ((leading_digits cs 0 : Nat) : Int)
    else ((leading_digits (c :: cs) 0 : Nat) : Int)

/-- The reduction of a number into the range of a 32-bit signed type (two's
complement): the number itself when it lies between -2147483648 and
2147483647. -/
def wrap_int32 (v : Int) : Int := (v + 2147483648) % 4294967296 - 2147483648

/-- The C function `atol`.  On the STM32 target of this firmware `long` has 32
bits.  The result is the number that the text writes when it fits a `long`;
for a number that does not fit, where C leaves the result open, the model
takes that number reduced modulo `2 ^ 32` into the range of `long`. -/
def atol (text : String) : Int := wrap_int32 (parse_decimal text)

/-- The C function `atoi`: as `atol`, with the 32-bit type `int` as the result
type. -/
def atoi (text : String) : Int := wrap_int32 (parse_decimal text)

/-- Conversion of a signed number to `unsigned` (32 bits). -/
def to_unsigned (v : Int) : Nat := (v % 4294967296).toNat

/-- The constant `DEFAULT_CAN_BITRATE` of `uavcan_main`. -/
def DEFAULT_CAN_BITRATE : Nat := 1000000

/-- The ways `uavcan_main` ends: the usage message and `exit(1)`, the message
about the node identifier and `exit(1)`, or the call of `UavcanNode::start`
with a node identifier and a bitrate. -/
inductive MainOutcome where
  | usage_exit
  | invalid_node_id_exit (node_id : Int)
  | start (node_id : Int) (bitrate : Nat)
deriving DecidableEq

/-- The function `uavcan_main` (lines 465-515); `argc` is the length of `argv`. -/
def uavcan_main (argv : List String) : MainOutcome :=
  let argc := argv.length
  if argc < 2 then MainOutcome.usage_exit
  else if argv.getD 1 "" = "start" then
    if argc < 3 then MainOutcome.usage_exit
    else
      let node_id := atoi (argv.getD 2 "")
      if node_id < 0 ∨ node_id > NodeID_Max ∨ NodeID_isUnicast node_id = false then
        MainOutcome.invalid_node_id_exit node_id
      else
        let bitrate0 : Nat := 0
        let bitrate1 : Nat := if argc > 3 then to_unsigned (atol (argv.getD 3 "")) else bitrate0
        let bitrate : Nat := if bitrate1 ≤ 0 then DEFAULT_CAN_BITRATE else bitrate1
        MainOutcome.start node_id bitrate
  else MainOutcome.usage_exit

/-! ## Notions used to state the properties -/

/-- The handles of the groups below `n` that the code treats as valid (its
test is `_control_subs[i] > 0`), in ascending group order. -/
def valid_handles (subs : Nat → Int) (n : Nat) : List Int :=
  ((List.range n).map subs).filter (fun h => decide (h > 0))

/-- The position in the poll set of the entry that belongs to group `i`: the
number of groups below `i` with a valid handle. -/
def poll_index (subs : Nat → Int) (i : Nat) : Nat := (valid_handles subs i).length

/-- The handles held by the first `_poll_fds_num` entries of the poll set. -/
def poll_entries {M : Type} (s : UavcanNode M) : List Int :=
  (List.range s._poll_fds_num).map (fun k => (s._poll_fds k).fd)

/-- The number of set bits of a `uint32_t`. -/
def popcount (mask : Nat) : Nat := ((List.range 32).filter (fun i => mask.testBit i)).length

/-- The number of calls of the mixing function in a trace. -/
def mix_calls (l : List Call) : Nat :=
  l.countP (fun c => match c with
    | Call.mix _ => true
    | _ => false)

/-- The handle of group `i` after the body of the loop of `subscribe()`, from
the handle `old` before it. -/
def new_handle (acquire : Nat → Int) (sub_groups unsub_groups : Nat) (old : Int) (i : Nat) : Int :=
  if unsub_groups &&& (1 <<< i) ≠ 0 then -1
  else if sub_groups &&& (1 <<< i) ≠ 0 then acquire i
  else old

/-! ## Concrete nodes and environments for the examples -/

/-- A mixer library over a one-element mixer type: the mixer writes its first
input, a NaN and 2.3, and requires group 0. -/
def exLib : MixerLib Unit :=
  { create := some (),
    load_from_buf := fun m _ _ => (0, m),
    groups_required := fun _ r => r ||| 1,
    mix := fun _ cb _ => [cb 0 0, Float32.nan, Float32.twoPointThree] }

/-- A control vector of zeros. -/
def exControls : actuator_controls_s := { timestamp := 0, control := fun _ => Float32.zero }

/-- A control message with every channel at 0.5. -/
def exMsg : actuator_controls_s := { timestamp := 7, control := fun _ => Float32.half }

/-- A node with a mixer loaded and group 0 subscribed under handle 3. -/
def exNode : UavcanNode Unit :=
  { _task := 0, _task_should_exit := false, _armed_sub := 4,
    _armed := { armed := false, lockdown := false }, _is_armed := false,
    _output_count := 2, _mixers := some (),
    _groups_required := 1, _groups_subscribed := 1,
    _control_subs := fun i => if i = 0 then 3 else -1,
    _controls := fun _ => exControls,
    _poll_fds := fun k => if k = 0 then { fd := 3, events := POLLIN, revents := 0 }
                          else { fd := 0, events := 0, revents := 0 },
    _poll_fds_num := 1, calls := [] }

/-- A pass in which every polled entry is readable and no arming update is
pending. -/
def exEnv : TickEnv :=
  { orb_subscribe := fun i => 3 + (i : Int),
    poll := PollOutcome.done (fun _ => 1),
    orb_copy := fun _ => exMsg,
    hrt_absolute_time := 1000,
    armed_updated := false,
    armed_msg := { armed := false, lockdown := false },
    spin := 0 }

/-- The output vector as `run()` clears it before the loop. -/
def exOutputs : actuator_outputs_s :=
  { timestamp := 0, noutputs := 0, output := fun _ => Float32.zero }

/-- A mixer library whose `load_from_buf` rejects every buffer. -/
def exRejectLib : MixerLib Unit :=
  { create := some (),
    load_from_buf := fun m _ _ => (-1, m),
    groups_required := fun _ r => r ||| 1,
    mix := fun _ _ _ => [] }

/-- A call of `start` in which everything succeeds except the spawning of the
task, which fails with `errno = ENOMEM`. -/
def exSpawnFails : StartEnv Unit :=
  { can_init := fun _ => 0,
    alloc := some exNode,
    cdev_init := 0,
    node_start := fun _ => 0,
    task_spawn_cmd := -1,
    errno := 12 }

/-- A call of `start` in which every step succeeds. -/
def exStartOk : StartEnv Unit :=
  { can_init := fun _ => 0,
    alloc := some exNode,
    cdev_init := 0,
    node_start := fun _ => 0,
    task_spawn_cmd := 5,
    errno := 0 }

/-- The statics before the first `start`: no instance, CAN driver not
initialised. -/
def exFresh : Globals Unit := { _instance := none, can_initialized := false }

/-- A node with no mixer, nothing subscribed and no valid handle, in which
group 0 has just become required. -/
def exIdle : UavcanNode Unit :=
  { _task := 0, _task_should_exit := false, _armed_sub := 4,
    _armed := { armed := false, lockdown := false }, _is_armed := false,
    _output_count := 2, _mixers := none,
    _groups_required := 1, _groups_subscribed := 0,
    _control_subs := fun _ => -1,
    _controls := fun _ => exControls,
    _poll_fds := fun _ => { fd := 0, events := 0, revents := 0 },
    _poll_fds_num := 0, calls := [] }

/-- The node `exIdle` with a requirement bitmask that has only bit 4 set, a
group index that is not below `NUM_ACTUATOR_CONTROL_GROUPS`. -/
def exHigh : UavcanNode Unit := { exIdle with _groups_required := 16 }

/-- The node `exNode` (group 0 subscribed) when groups 1 and 2 have become
required instead of group 0. -/
def exSwitch : UavcanNode Unit := { exNode with _groups_required := 6 }

/-- The pass `exEnv` when `poll` times out: no entry is flagged. -/
def exTimeoutEnv : TickEnv := { exEnv with poll := PollOutcome.done (fun _ => 0) }

/-- A pass in which `poll` flags the first entry of the poll set readable and
no other. -/
def exOneMsgEnv : TickEnv :=
  { exEnv with poll := PollOutcome.done (fun k => if k = 0 then POLLIN else 0) }

/-- The node `exNode` (disarmed) after the arm update with the record
(armed, no lockdown). -/
def exArmed : UavcanNode Unit :=
  (arm_update exNode { armed := true, lockdown := false }).node

/-- The node `exArmed` after the arm update with the record (armed,
lockdown). -/
def exLocked : UavcanNode Unit :=
  (arm_update exArmed { armed := true, lockdown := true }).node

/-! ## Facts about the safety clamp -/

theorem scaled_negOne : Float32.negOne.scaled = -713623846352979940529142984724747568191373312 := by
  decide

theorem scaled_one : Float32.one.scaled = 713623846352979940529142984724747568191373312 := by
  decide

theorem toRat_lt_neg_one_iff (v : Float32) :
    v.toRat < -1 ↔ v.scaled < Float32.negOne.scaled := by
  rw [scaled_negOne, Float32.toRat, div_lt_iff₀ (by positivity)]
  have h : (-1 : ℚ) * 2 ^ 149 = ((-713623846352979940529142984724747568191373312 : Int) : ℚ) := by
    norm_num
  rw [h, Int.cast_lt]

theorem one_lt_toRat_iff (v : Float32) :
    1 < v.toRat ↔ Float32.one.scaled < v.scaled := by
  rw [scaled_one, Float32.toRat, lt_div_iff₀ (by positivity)]
  have h : (1 : ℚ) * 2 ^ 149 = ((713623846352979940529142984724747568191373312 : Int) : ℚ) := by
    norm_num
  rw [h, Int.cast_lt]

/-- The check of the source fires exactly on NaN, the infinities and the
finite values outside `[-1, 1]`. -/
theorem out_of_band_iff (v : Float32) :
    out_of_band v = true ↔
      (v.isNaN = true ∨ v.isInf = true ∨ v.toRat < -1 ∨ 1 < v.toRat) := by
  rw [toRat_lt_neg_one_iff, one_lt_toRat_iff]
  by_cases he : v.expo = 255
  · by_cases hm : v.mant = 0
    · simp [out_of_band, Float32.isfinite, Float32.isNaN, Float32.isInf, he, hm]
    · simp [out_of_band, Float32.isfinite, Float32.isNaN, Float32.isInf, he, hm]
  · have h1 : Float32.negOne.expo = 127 := rfl
    have h2 : Float32.one.expo = 127 := rfl
    simp [out_of_band, Float32.isfinite, Float32.isNaN, Float32.isInf, Float32.lt, Float32.gt,
      he, h1, h2]

theorem clamp_body_noutputs (o : actuator_outputs_s) (i : Nat) :
    (clamp_body o i).noutputs = o.noutputs := by
  unfold clamp_body
  split <;> rfl

theorem clamp_body_timestamp (o : actuator_outputs_s) (i : Nat) :
    (clamp_body o i).timestamp = o.timestamp := by
  unfold clamp_body
  split <;> rfl

theorem clamp_body_output (o : actuator_outputs_s) (i j : Nat) :
    (clamp_body o i).output j = if j = i then clamp_value (o.output i) else o.output j := by
  unfold clamp_body clamp_value
  cases h : out_of_band (o.output i)
  · by_cases hj : j = i
    · simp [hj]
    · simp [hj]
  · simp [setAt]

/-- The clamp loop over the channels below `n`: channel `j < n` holds the
clamped value, every other channel is untouched. -/
theorem clamp_fold_output (n : Nat) (o : actuator_outputs_s) (j : Nat) :
    ((List.range n).foldl clamp_body o).output j =
      if j < n then clamp_value (o.output j) else o.output j := by
  induction n with
  | zero => simp
  | succ n ih =>
    rw [List.range_succ, List.foldl_append, List.foldl_cons, List.foldl_nil, clamp_body_output]
    by_cases hj : j = n
    · subst hj
      rw [ih]
      simp
    · rw [if_neg hj, ih]
      by_cases hlt : j < n
      · simp [hlt, Nat.lt_succ_of_lt hlt]
      · have : ¬ j < n + 1 := by omega
        simp [hlt, this]

theorem clamp_fold_noutputs (n : Nat) (o : actuator_outputs_s) :
    ((List.range n).foldl clamp_body o).noutputs = o.noutputs := by
  induction n with
  | zero => simp
  | succ n ih =>
    rw [List.range_succ, List.foldl_append, List.foldl_cons, List.foldl_nil, clamp_body_noutputs, ih]

theorem clamp_outputs_output (o : actuator_outputs_s) (j : Nat) :
    (clamp_outputs o).output j =
      if j < o.noutputs then clamp_value (o.output j) else o.output j :=
  clamp_fold_output o.noutputs o j

theorem clamp_outputs_noutputs (o : actuator_outputs_s) :
    (clamp_outputs o).noutputs = o.noutputs :=
  clamp_fold_noutputs o.noutputs o

theorem toRat_negOne : Float32.negOne.toRat = -1 := by
  norm_num [Float32.toRat, Float32.scaled, Float32.negOne]

theorem toRat_one : Float32.one.toRat = 1 := by
  norm_num [Float32.toRat, Float32.scaled, Float32.one]

theorem toRat_half : Float32.half.toRat = 1 / 2 := by
  norm_num [Float32.toRat, Float32.scaled, Float32.half]

theorem toRat_twoPointThree : Float32.twoPointThree.toRat = 9646899 / 4194304 := by
  norm_num [Float32.toRat, Float32.scaled, Float32.twoPointThree]

theorem toRat_five : Float32.five.toRat = 5 := by
  norm_num [Float32.toRat, Float32.scaled, Float32.five]

theorem toRat_negFive : Float32.negFive.toRat = -5 := by
  norm_num [Float32.toRat, Float32.scaled, Float32.negFive]

/-! ## Frame facts of the loops -/

/-- A quantity that no step of a fold changes is unchanged by the fold. -/
theorem foldl_keeps {σ β γ : Type} (f : σ → β → σ) (g : σ → γ)
    (h : ∀ s i, g (f s i) = g s) (l : List β) (s : σ) :
    g (l.foldl f s) = g s := by
  induction l generalizing s with
  | nil => rfl
  | cons a l ih => rw [List.foldl_cons, ih, h]

theorem subscribe_body_mixers {M : Type} (acquire : Nat → Int) (a b : Nat)
    (s : UavcanNode M) (i : Nat) :
    (subscribe_body acquire a b s i)._mixers = s._mixers := by
  unfold subscribe_body
  dsimp only
  split_ifs <;> rfl

theorem subscribe_body_controls {M : Type} (acquire : Nat → Int) (a b : Nat)
    (s : UavcanNode M) (i : Nat) :
    (subscribe_body acquire a b s i)._controls = s._controls := by
  unfold subscribe_body
  dsimp only
  split_ifs <;> rfl

theorem reconcile_mixers {M : Type} (acquire : Nat → Int) (s : UavcanNode M) :
    (reconcile acquire s)._mixers = s._mixers := by
  unfold reconcile
  split
  · exact foldl_keeps (subscribe_body acquire _ _) (fun t : UavcanNode M => t._mixers)
      (subscribe_body_mixers acquire _ _) _ _
  · rfl

theorem reconcile_controls {M : Type} (acquire : Nat → Int) (s : UavcanNode M) :
    (reconcile acquire s)._controls = s._controls := by
  unfold reconcile
  split
  · exact foldl_keeps (subscribe_body acquire _ _) (fun t : UavcanNode M => t._controls)
      (subscribe_body_controls acquire _ _) _ _
  · rfl

theorem fetch_body_mixers {M : Type} (msg : Nat → actuator_controls_s)
    (st : UavcanNode M × Nat) (i : Nat) :
    (fetch_body msg st i).1._mixers = st.1._mixers := by
  unfold fetch_body
  dsimp only
  split_ifs <;> rfl

theorem poll_step_mixers {M : Type} (env : TickEnv) (s : UavcanNode M) :
    (poll_step env s).2._mixers = s._mixers :=
  reconcile_mixers env.orb_subscribe s

theorem fetch_step_mixers {M : Type} (env : TickEnv) (s : UavcanNode M) :
    (fetch_step env s)._mixers = s._mixers := by
  unfold fetch_step fetch_loop
  rw [foldl_keeps (fetch_body env.orb_copy) (fun st : UavcanNode M × Nat => st.1._mixers)
    (fetch_body_mixers env.orb_copy)]
  exact poll_step_mixers env s

/-- The output vector of a pass in which `poll` reports ready input and a
mixer is loaded: the mixer results, stored and clamped. -/
theorem run_iteration_outputs {M : Type} (lib : MixerLib M) (env : TickEnv)
    (s : UavcanNode M) (outputs : actuator_outputs_s) (m : M)
    (hm : s._mixers = some m) (hret : 0 < (poll_step env s).1) :
    (run_iteration lib env s outputs).2 =
      clamp_outputs
        { timestamp := env.hrt_absolute_time,
          noutputs := (lib.mix m (control_callback (fetch_step env s)._controls) 8).length,
          output := write_outputs (lib.mix m (control_callback (fetch_step env s)._controls) 8)
            outputs.output } := by
  have h1 : ¬ (poll_step env s).1 < 0 := by omega
  have h2 : ¬ (poll_step env s).1 = 0 := by omega
  have h3 : (fetch_step env s)._mixers = some m := by rw [fetch_step_mixers, hm]
  unfold run_iteration
  simp only [h1, h2, if_false]
  unfold mix_block
  rw [h3]

/-! ## Bit tests -/

/-- The C test `mask & (1 << i)` is the test of bit `i`. -/
theorem and_shift_ne_zero (x i : Nat) : (x &&& (1 <<< i) ≠ 0) ↔ x.testBit i = true := by
  rw [Nat.one_shiftLeft]
  constructor
  · intro h
    by_contra hb
    apply h
    apply Nat.eq_of_testBit_eq
    intro j
    simp only [Nat.testBit_and, Nat.testBit_two_pow, Nat.zero_testBit]
    by_cases hj : i = j
    · subst hj; simp [hb]
    · simp [hj]
  · intro h h0
    have := congrArg (fun y => y.testBit i) h0
    simp [Nat.testBit_and, Nat.testBit_two_pow, h] at this

theorem testBit_bnot32 (x i : Nat) (hi : i < 32) : (bnot32 x).testBit i = !x.testBit i := by
  unfold bnot32
  have h1 : (4294967295 : Nat) = 2 ^ 32 - 1 := by norm_num
  have h2 : (4294967296 : Nat) = 2 ^ 32 := by norm_num
  rw [Nat.testBit_xor, h1, h2, Nat.testBit_two_pow_sub_one, Nat.testBit_mod_two_pow]
  simp [hi]

/-- Bit `i` of `a & ~b`, for a bit of a 32-bit word. -/
theorem and_bnot32_bit (a b i : Nat) (hi : i < 32) :
    (a &&& bnot32 b) &&& (1 <<< i) ≠ 0 ↔ (a.testBit i = true ∧ b.testBit i = false) := by
  rw [and_shift_ne_zero, Nat.testBit_and, testBit_bnot32 b i hi]
  cases a.testBit i <;> cases b.testBit i <;> simp

/-! ## The loop of `subscribe()` -/

theorem subscribe_body_subs {M : Type} (acquire : Nat → Int) (a b : Nat)
    (s : UavcanNode M) (i j : Nat) :
    (subscribe_body acquire a b s i)._control_subs j =
      if j = i then new_handle acquire a b (s._control_subs i) i else s._control_subs j := by
  unfold subscribe_body new_handle
  dsimp only
  by_cases hj : j = i
  · subst hj
    split_ifs <;> simp_all [setAt]
  · split_ifs <;> simp_all [setAt]

theorem subscribe_body_num {M : Type} (acquire : Nat → Int) (a b : Nat)
    (s : UavcanNode M) (i : Nat) :
    (subscribe_body acquire a b s i)._poll_fds_num =
      s._poll_fds_num + (if new_handle acquire a b (s._control_subs i) i > 0 then 1 else 0) := by
  unfold subscribe_body new_handle
  dsimp only
  split_ifs <;> simp_all [setAt]

theorem subscribe_body_fd {M : Type} (acquire : Nat → Int) (a b : Nat)
    (s : UavcanNode M) (i k : Nat) :
    ((subscribe_body acquire a b s i)._poll_fds k).fd =
      if new_handle acquire a b (s._control_subs i) i > 0 ∧ k = s._poll_fds_num then
        new_handle acquire a b (s._control_subs i) i
      else (s._poll_fds k).fd := by
  unfold subscribe_body new_handle
  dsimp only
  by_cases hk : k = s._poll_fds_num
  · subst hk
    split_ifs <;> simp_all [setAt]
  · split_ifs <;> simp_all [setAt]

theorem subscribe_loop_succ {M : Type} (acquire : Nat → Int) (a b n : Nat) (s : UavcanNode M) :
    subscribe_loop acquire a b (n + 1) s =
      subscribe_body acquire a b (subscribe_loop acquire a b n s) n := by
  unfold subscribe_loop
  rw [List.range_succ, List.foldl_append, List.foldl_cons, List.foldl_nil]

/-- The handles after the loop over the groups below `n`. -/
theorem subscribe_loop_subs {M : Type} (acquire : Nat → Int) (a b n : Nat)
    (s : UavcanNode M) (j : Nat) :
    (subscribe_loop acquire a b n s)._control_subs j =
      if j < n then new_handle acquire a b (s._control_subs j) j else s._control_subs j := by
  induction n with
  | zero => simp [subscribe_loop]
  | succ n ih =>
    rw [subscribe_loop_succ, subscribe_body_subs]
    by_cases hj : j = n
    · subst hj
      have hn : (subscribe_loop acquire a b j s)._control_subs j = s._control_subs j := by
        rw [ih]; simp
      simp [hn]
    · rw [if_neg hj, ih]
      by_cases hlt : j < n
      · simp [hlt, Nat.lt_succ_of_lt hlt]
      · have : ¬ j < n + 1 := by omega
        simp [hlt, this]

theorem valid_handles_succ (subs : Nat → Int) (n : Nat) :
    valid_handles subs (n + 1) =
      valid_handles subs n ++ (if subs n > 0 then [subs n] else []) := by
  unfold valid_handles
  rw [List.range_succ, List.map_append, List.filter_append]
  by_cases h : subs n > 0
  · simp [h]
  · simp [h]

/-- Two handle arrays that agree below `n` have the same valid handles below
`n`. -/
theorem valid_handles_congr (f g : Nat → Int) (n : Nat) (h : ∀ i, i < n → f i = g i) :
    valid_handles f n = valid_handles g n := by
  unfold valid_handles
  congr 1
  apply List.map_congr_left
  intro i hi
  exact h i (List.mem_range.mp hi)

/-- The poll set that the loop of `subscribe()` builds from an empty one: the
valid handles of the groups below `n`, in ascending group order. -/
theorem subscribe_loop_entries {M : Type} (acquire : Nat → Int) (a b n : Nat)
    (s : UavcanNode M) (h0 : s._poll_fds_num = 0) :
    poll_entries (subscribe_loop acquire a b n s) =
      valid_handles (fun j => new_handle acquire a b (s._control_subs j) j) n := by
  induction n with
  | zero => simp [subscribe_loop, poll_entries, valid_handles, h0]
  | succ n ih =>
    rw [subscribe_loop_succ, valid_handles_succ, ← ih]
    have hn : (subscribe_loop acquire a b n s)._control_subs n = s._control_subs n := by
      rw [subscribe_loop_subs]; simp
    unfold poll_entries
    rw [subscribe_body_num, hn]
    by_cases hv : new_handle acquire a b (s._control_subs n) n > 0
    · simp only [hv, if_true]
      rw [List.range_succ, List.map_append, List.map_cons, List.map_nil, subscribe_body_fd, hn]
      simp only [hv, and_self, if_true]
      congr 1
      apply List.map_congr_left
      intro k hk
      rw [subscribe_body_fd]
      have : k ≠ (subscribe_loop acquire a b n s)._poll_fds_num :=
        Nat.ne_of_lt (List.mem_range.mp hk)
      simp [this]
    · simp only [hv, if_false, Nat.add_zero, List.append_nil]
      apply List.map_congr_left
      intro k _
      rw [subscribe_body_fd, hn]
      simp [hv]

theorem poll_entries_length {M : Type} (s : UavcanNode M) :
    (poll_entries s).length = s._poll_fds_num := by
  simp [poll_entries]

/-! ## `subscribe()` and the reconciliation step -/

theorem subscribe_body_required {M : Type} (acquire : Nat → Int) (a b : Nat)
    (s : UavcanNode M) (i : Nat) :
    (subscribe_body acquire a b s i)._groups_required = s._groups_required := by
  unfold subscribe_body
  dsimp only
  split_ifs <;> rfl

theorem subscribe_required {M : Type} (acquire : Nat → Int) (s : UavcanNode M) :
    (subscribe acquire s)._groups_required = s._groups_required :=
  foldl_keeps (subscribe_body acquire _ _) (fun t : UavcanNode M => t._groups_required)
    (subscribe_body_required acquire _ _) _ _

theorem subscribe_subs {M : Type} (acquire : Nat → Int) (s : UavcanNode M) (j : Nat) :
    (subscribe acquire s)._control_subs j =
      if j < NUM_ACTUATOR_CONTROL_GROUPS then
        new_handle acquire (s._groups_required &&& bnot32 s._groups_subscribed)
          (s._groups_subscribed &&& bnot32 s._groups_required) (s._control_subs j) j
      else s._control_subs j := by
  unfold subscribe
  rw [subscribe_loop_subs]

/-- Whatever the node was before, `subscribe()` builds the poll set from the
valid handles it leaves, in ascending group order. -/
theorem subscribe_entries {M : Type} (acquire : Nat → Int) (s : UavcanNode M) :
    poll_entries (subscribe acquire s) =
      valid_handles (subscribe acquire s)._control_subs NUM_ACTUATOR_CONTROL_GROUPS := by
  have h := subscribe_loop_entries acquire (s._groups_required &&& bnot32 s._groups_subscribed)
    (s._groups_subscribed &&& bnot32 s._groups_required) NUM_ACTUATOR_CONTROL_GROUPS
    { s with _poll_fds_num := 0 } rfl
  have hc := valid_handles_congr (subscribe acquire s)._control_subs
    (fun j => new_handle acquire (s._groups_required &&& bnot32 s._groups_subscribed)
      (s._groups_subscribed &&& bnot32 s._groups_required) (s._control_subs j) j)
    NUM_ACTUATOR_CONTROL_GROUPS (by
      intro i hi
      rw [subscribe_subs]
      simp [hi])
  rw [hc]
  exact h

/-- With consistent handles before and successful acquisitions, the handle of
a group below `NUM_ACTUATOR_CONTROL_GROUPS` is valid after the loop body
exactly when the group is required. -/
theorem new_handle_pos_iff (acquire : Nat → Int) (req subd : Nat) (old : Int) (i : Nat)
    (hi : i < NUM_ACTUATOR_CONTROL_GROUPS)
    (hold : old > 0 ↔ subd.testBit i = true) (hacq : acquire i > 0) :
    new_handle acquire (req &&& bnot32 subd) (subd &&& bnot32 req) old i > 0 ↔
      req.testBit i = true := by
  have hi32 : i < 32 := by
    unfold NUM_ACTUATOR_CONTROL_GROUPS at hi
    omega
  unfold new_handle
  simp only [and_bnot32_bit subd req i hi32, and_bnot32_bit req subd i hi32]
  cases hr : req.testBit i <;> cases hs : subd.testBit i <;> simp_all

theorem reconcile_subscribed {M : Type} (acquire : Nat → Int) (s : UavcanNode M) :
    (reconcile acquire s)._groups_subscribed = s._groups_required := by
  unfold reconcile
  split
  · rfl
  · next h => exact not_not.mp h

theorem reconcile_required {M : Type} (acquire : Nat → Int) (s : UavcanNode M) :
    (reconcile acquire s)._groups_required = s._groups_required := by
  unfold reconcile
  split
  · exact subscribe_required acquire s
  · rfl

/-- The handles after a reconciliation step with consistent handles before
and successful acquisitions. -/
theorem reconcile_valid_iff {M : Type} (acquire : Nat → Int) (s : UavcanNode M)
    (hcons : ∀ i, i < NUM_ACTUATOR_CONTROL_GROUPS →
      (s._control_subs i > 0 ↔ s._groups_subscribed.testBit i = true))
    (hacq : ∀ i, i < NUM_ACTUATOR_CONTROL_GROUPS → acquire i > 0)
    (i : Nat) (hi : i < NUM_ACTUATOR_CONTROL_GROUPS) :
    (reconcile acquire s)._control_subs i > 0 ↔ s._groups_required.testBit i = true := by
  unfold reconcile
  split
  · show (subscribe acquire s)._control_subs i > 0 ↔ _
    rw [subscribe_subs, if_pos hi]
    exact new_handle_pos_iff acquire _ _ _ i hi (hcons i hi) (hacq i hi)
  · next h =>
    rw [← not_not.mp h]
    exact hcons i hi

/-- The poll set after a reconciliation step lists the valid handles in
ascending group order, provided it did so before when `subscribe()` is not
called. -/
theorem reconcile_entries {M : Type} (acquire : Nat → Int) (s : UavcanNode M)
    (hset : s._groups_subscribed ≠ s._groups_required ∨
      poll_entries s = valid_handles s._control_subs NUM_ACTUATOR_CONTROL_GROUPS) :
    poll_entries (reconcile acquire s) =
      valid_handles (reconcile acquire s)._control_subs NUM_ACTUATOR_CONTROL_GROUPS := by
  unfold reconcile
  split
  · exact subscribe_entries acquire s
  · next h =>
    cases hset with
    | inl hne => exact absurd hne h
    | inr hp => exact hp

/-- The valid handles, when validity follows the bits of a mask, are the
handles of the groups whose bit is set. -/
theorem valid_handles_of_bits (subs : Nat → Int) (mask n : Nat)
    (h : ∀ i, i < n → (subs i > 0 ↔ mask.testBit i = true)) :
    valid_handles subs n = ((List.range n).filter (fun i => mask.testBit i)).map subs := by
  unfold valid_handles
  rw [List.filter_map]
  congr 1
  apply List.filter_congr
  intro i hi
  have := h i (List.mem_range.mp hi)
  simp only [Function.comp]
  cases hb : mask.testBit i
  · simp [hb] at this
    simp [this]
  · simp [hb] at this
    simp [this]

/-- A mask with bits only below `NUM_ACTUATOR_CONTROL_GROUPS` has as many set
bits as it has set bits among the group indices. -/
theorem popcount_of_small (mask : Nat) (h : mask < 2 ^ NUM_ACTUATOR_CONTROL_GROUPS) :
    popcount mask =
      ((List.range NUM_ACTUATOR_CONTROL_GROUPS).filter (fun i => mask.testBit i)).length := by
  unfold popcount
  have h32 : (32 : Nat) = NUM_ACTUATOR_CONTROL_GROUPS + 28 := by
    unfold NUM_ACTUATOR_CONTROL_GROUPS; rfl
  rw [h32, List.range_add, List.filter_append, List.length_append]
  have hnil : List.filter (fun i => mask.testBit i)
      (List.map (fun x => NUM_ACTUATOR_CONTROL_GROUPS + x) (List.range 28)) = [] := by
    rw [List.filter_eq_nil_iff]
    intro a ha
    obtain ⟨x, _, rfl⟩ := List.mem_map.mp ha
    have : mask < 2 ^ (NUM_ACTUATOR_CONTROL_GROUPS + x) :=
      lt_of_lt_of_le h (Nat.pow_le_pow_right (by norm_num) (Nat.le_add_right _ _))
    simp [Nat.testBit_lt_two_pow this]
  rw [hnil]
  simp

/-! ## The input loop -/

theorem fetch_body_subs {M : Type} (msg : Nat → actuator_controls_s)
    (st : UavcanNode M × Nat) (i : Nat) :
    (fetch_body msg st i).1._control_subs = st.1._control_subs := by
  unfold fetch_body
  dsimp only
  split_ifs <;> rfl

theorem fetch_body_fds {M : Type} (msg : Nat → actuator_controls_s)
    (st : UavcanNode M × Nat) (i : Nat) :
    (fetch_body msg st i).1._poll_fds = st.1._poll_fds := by
  unfold fetch_body
  dsimp only
  split_ifs <;> rfl

theorem fetch_body_mix_calls {M : Type} (msg : Nat → actuator_controls_s)
    (st : UavcanNode M × Nat) (i : Nat) :
    mix_calls (fetch_body msg st i).1.calls = mix_calls st.1.calls := by
  unfold fetch_body
  dsimp only
  split_ifs <;> simp [mix_calls, List.countP_append]

theorem fetch_body_poll_id {M : Type} (msg : Nat → actuator_controls_s)
    (st : UavcanNode M × Nat) (i : Nat) :
    (fetch_body msg st i).2 = st.2 + (if st.1._control_subs i > 0 then 1 else 0) := by
  unfold fetch_body
  dsimp only
  split_ifs <;> rfl

theorem fetch_body_controls {M : Type} (msg : Nat → actuator_controls_s)
    (st : UavcanNode M × Nat) (i j : Nat) :
    (fetch_body msg st i).1._controls j =
      if j = i ∧ st.1._control_subs i > 0 ∧ (st.1._poll_fds st.2).revents &&& POLLIN ≠ 0 then msg i
      else st.1._controls j := by
  unfold fetch_body
  dsimp only
  by_cases hj : j = i
  · subst hj
    split_ifs <;> simp_all [setAt]
  · split_ifs <;> simp_all [setAt]

theorem fetch_loop_succ {M : Type} (msg : Nat → actuator_controls_s) (n : Nat)
    (s : UavcanNode M) :
    fetch_loop msg (n + 1) s = fetch_body msg (fetch_loop msg n s) n := by
  unfold fetch_loop
  rw [List.range_succ, List.foldl_append, List.foldl_cons, List.foldl_nil]

theorem fetch_loop_subs {M : Type} (msg : Nat → actuator_controls_s) (n : Nat)
    (s : UavcanNode M) :
    (fetch_loop msg n s).1._control_subs = s._control_subs :=
  foldl_keeps (fetch_body msg) (fun st : UavcanNode M × Nat => st.1._control_subs)
    (fetch_body_subs msg) _ _

theorem fetch_loop_fds {M : Type} (msg : Nat → actuator_controls_s) (n : Nat)
    (s : UavcanNode M) :
    (fetch_loop msg n s).1._poll_fds = s._poll_fds :=
  foldl_keeps (fetch_body msg) (fun st : UavcanNode M × Nat => st.1._poll_fds)
    (fetch_body_fds msg) _ _

theorem fetch_loop_mix_calls {M : Type} (msg : Nat → actuator_controls_s) (n : Nat)
    (s : UavcanNode M) :
    mix_calls (fetch_loop msg n s).1.calls = mix_calls s.calls :=
  foldl_keeps (fetch_body msg) (fun st : UavcanNode M × Nat => mix_calls st.1.calls)
    (fetch_body_mix_calls msg) _ _

/-- The running `poll_id` after the groups below `n` is the poll index of
group `n`. -/
theorem fetch_loop_poll_id {M : Type} (msg : Nat → actuator_controls_s) (n : Nat)
    (s : UavcanNode M) :
    (fetch_loop msg n s).2 = poll_index s._control_subs n := by
  induction n with
  | zero => simp [fetch_loop, poll_index, valid_handles]
  | succ n ih =>
    rw [fetch_loop_succ, fetch_body_poll_id, ih, fetch_loop_subs]
    unfold poll_index
    rw [valid_handles_succ, List.length_append]
    by_cases h : s._control_subs n > 0
    · simp [h]
    · simp [h]

/-- The buffered control vectors after the input loop over the groups below
`n`: group `j` holds the message exactly when its handle is valid and the
poll-set entry at its poll index is flagged readable. -/
theorem fetch_loop_controls {M : Type} (msg : Nat → actuator_controls_s) (n : Nat)
    (s : UavcanNode M) (j : Nat) :
    (fetch_loop msg n s).1._controls j =
      if j < n ∧ s._control_subs j > 0 ∧
          (s._poll_fds (poll_index s._control_subs j)).revents &&& POLLIN ≠ 0 then msg j
      else s._controls j := by
  induction n with
  | zero => simp [fetch_loop]
  | succ n ih =>
    rw [fetch_loop_succ, fetch_body_controls, fetch_loop_subs, fetch_loop_fds,
      fetch_loop_poll_id, ih]
    by_cases hj : j = n
    · subst hj
      by_cases hc : s._control_subs j > 0 ∧
          (s._poll_fds (poll_index s._control_subs j)).revents &&& POLLIN ≠ 0
      · simp [hc]
      · have hc2 : ¬ (j < j + 1 ∧ s._control_subs j > 0 ∧
            (s._poll_fds (poll_index s._control_subs j)).revents &&& POLLIN ≠ 0) :=
          fun h => hc h.2
        have hc3 : ¬ (j = j ∧ s._control_subs j > 0 ∧
            (s._poll_fds (poll_index s._control_subs j)).revents &&& POLLIN ≠ 0) :=
          fun h => hc h.2
        rw [if_neg hc3, if_neg hc2]
        simp
    · have h1 : ¬ (j = n ∧ s._control_subs n > 0 ∧
          (s._poll_fds (poll_index s._control_subs n)).revents &&& POLLIN ≠ 0) :=
        fun h => hj h.1
      rw [if_neg h1]
      by_cases hlt : j < n
      · have : j < n + 1 := Nat.lt_succ_of_lt hlt
        simp [hlt, this]
      · have : ¬ j < n + 1 := by omega
        simp [hlt, this]

/-- The valid handles below `n` list the handle of a valid group `i < n` at
the poll index of `i`. -/
theorem valid_handles_at (subs : Nat → Int) (n i : Nat) (hi : i < n) (hv : subs i > 0) :
    (valid_handles subs n)[poll_index subs i]? = some (subs i) := by
  induction n with
  | zero => omega
  | succ n ih =>
    rw [valid_handles_succ]
    by_cases hin : i = n
    · subst hin
      simp [hv, poll_index]
    · have hlt : i < n := by omega
      have h := ih hlt
      have hlen : poll_index subs i < (valid_handles subs n).length :=
        (List.getElem?_eq_some_iff.mp h).1
      rw [List.getElem?_append_left hlen]
      exact h

/-- In a poll set that lists the valid handles, the entry at the poll index
of a valid group lies within the set and holds the handle of that group. -/
theorem entry_of_group {M : Type} (s : UavcanNode M) (n i : Nat)
    (hset : poll_entries s = valid_handles s._control_subs n)
    (hi : i < n) (hv : s._control_subs i > 0) :
    poll_index s._control_subs i < s._poll_fds_num ∧
    (s._poll_fds (poll_index s._control_subs i)).fd = s._control_subs i := by
  have h := valid_handles_at s._control_subs n i hi hv
  rw [← hset] at h
  obtain ⟨hlt, hval⟩ := List.getElem?_eq_some_iff.mp h
  rw [poll_entries_length] at hlt
  refine ⟨hlt, ?_⟩
  simpa [poll_entries] using hval

/-! ## Frame facts of a pass -/

theorem run_tail_controls {M : Type} (env : TickEnv) (s : UavcanNode M) :
    (run_tail env s)._controls = s._controls := by
  unfold run_tail arm_update arm_actuators
  dsimp only
  split_ifs <;> rfl

theorem run_tail_mix_calls {M : Type} (env : TickEnv) (s : UavcanNode M) :
    mix_calls (run_tail env s).calls = mix_calls s.calls := by
  unfold run_tail arm_update arm_actuators
  dsimp only
  split_ifs <;> simp [mix_calls, List.countP_append]

theorem mix_block_controls {M : Type} (lib : MixerLib M) (now : Nat) (s : UavcanNode M)
    (o : actuator_outputs_s) :
    (mix_block lib now s o).1._controls = s._controls := by
  unfold mix_block
  split <;> rfl

theorem subscribe_body_mix_calls {M : Type} (acquire : Nat → Int) (a b : Nat)
    (s : UavcanNode M) (i : Nat) :
    mix_calls (subscribe_body acquire a b s i).calls = mix_calls s.calls := by
  unfold subscribe_body
  dsimp only
  split_ifs <;> simp [mix_calls, List.countP_append]

theorem reconcile_mix_calls {M : Type} (acquire : Nat → Int) (s : UavcanNode M) :
    mix_calls (reconcile acquire s).calls = mix_calls s.calls := by
  unfold reconcile
  split
  · exact foldl_keeps (subscribe_body acquire _ _) (fun t : UavcanNode M => mix_calls t.calls)
      (subscribe_body_mix_calls acquire _ _) _ _
  · rfl

theorem poll_step_mix_calls {M : Type} (env : TickEnv) (s : UavcanNode M) :
    mix_calls (poll_step env s).2.calls = mix_calls s.calls := by
  have h := reconcile_mix_calls env.orb_subscribe s
  unfold poll_step
  dsimp only
  rw [← h]
  simp [mix_calls, List.countP_append]

theorem fetch_step_mix_calls {M : Type} (env : TickEnv) (s : UavcanNode M) :
    mix_calls (fetch_step env s).calls = mix_calls s.calls := by
  unfold fetch_step
  rw [fetch_loop_mix_calls, poll_step_mix_calls]

theorem poll_step_controls {M : Type} (env : TickEnv) (s : UavcanNode M) :
    (poll_step env s).2._controls = s._controls :=
  reconcile_controls env.orb_subscribe s

theorem run_iteration_controls_pos {M : Type} (lib : MixerLib M) (env : TickEnv)
    (s : UavcanNode M) (o : actuator_outputs_s) (h : 0 < (poll_step env s).1) :
    (run_iteration lib env s o).1._controls = (fetch_step env s)._controls := by
  have h1 : ¬ (poll_step env s).1 < 0 := by omega
  have h2 : ¬ (poll_step env s).1 = 0 := by omega
  unfold run_iteration
  simp only [h1, h2, if_false]
  rw [run_tail_controls, mix_block_controls]

theorem run_iteration_controls_nonpos {M : Type} (lib : MixerLib M) (env : TickEnv)
    (s : UavcanNode M) (o : actuator_outputs_s) (h : ¬ 0 < (poll_step env s).1) :
    (run_iteration lib env s o).1._controls = s._controls := by
  unfold run_iteration
  dsimp only
  by_cases h1 : (poll_step env s).1 < 0
  · rw [if_pos h1]
    exact poll_step_controls env s
  · have h2 : (poll_step env s).1 = 0 := by omega
    rw [if_neg h1, if_pos h2]
    show (run_tail env (poll_step env s).2)._controls = s._controls
    rw [run_tail_controls]
    exact poll_step_controls env s

/-- The return value of a `poll` that flags entry `k` of the set is positive. -/
theorem poll_count_pos (rev : Nat → Nat) (n k : Nat) (hk : k < n) (hr : rev k ≠ 0) :
    0 < ((List.range n).filter (fun k => rev k != 0)).length := by
  apply List.length_pos_of_mem (a := k)
  rw [List.mem_filter]
  exact ⟨List.mem_range.mpr hk, by simp [hr]⟩

theorem poll_step_ret_done {M : Type} (env : TickEnv) (s : UavcanNode M) (rev : Nat → Nat)
    (h : env.poll = PollOutcome.done rev) :
    (poll_step env s).1 =
      ((((List.range (reconcile env.orb_subscribe s)._poll_fds_num).filter
        (fun k => rev k != 0)).length : Nat) : Int) := by
  unfold poll_step poll
  rw [h]

theorem poll_step_revents {M : Type} (env : TickEnv) (s : UavcanNode M) (rev : Nat → Nat)
    (h : env.poll = PollOutcome.done rev) (k : Nat)
    (hk : k < (reconcile env.orb_subscribe s)._poll_fds_num) :
    ((poll_step env s).2._poll_fds k).revents = rev k := by
  unfold poll_step poll
  rw [h]
  simp [hk]

theorem poll_step_ret_error {M : Type} (env : TickEnv) (s : UavcanNode M) (e : Int)
    (h : env.poll = PollOutcome.error e) :
    (poll_step env s).1 = -1 := by
  unfold poll_step poll
  rw [h]

/-! ## C1: the safety clamp -/

/-- C1: in a pass of `run()` in which the mixer is invoked (a mixer is loaded
and `poll` reports ready input), the output count is the number of values the
mixer produced and, for every index `i` below it with mixer value `v`, the
stored output is `-1.0` when `v` is NaN, an infinity, below `-1.0` or above
`1.0`, and is `v` itself otherwise.  In particular the clamp sends NaN, both
infinities, 2.3, 5.0 and -5.0 to `-1.0` and leaves 0.5 unchanged. -/
theorem safety_clamp_every_channel {M : Type} (lib : MixerLib M) (env : TickEnv)
    (s : UavcanNode M) (outputs : actuator_outputs_s) (m : M)
    (hm : s._mixers = some m) (hret : 0 < (poll_step env s).1) :
    (run_iteration lib env s outputs).2.noutputs =
        (lib.mix m (control_callback (fetch_step env s)._controls) 8).length ∧
    (∀ (i : Nat) (v : Float32),
        (lib.mix m (control_callback (fetch_step env s)._controls) 8)[i]? = some v →
        (run_iteration lib env s outputs).2.output i = clamp_value v ∧
        ((v.isNaN = true ∨ v.isInf = true ∨ v.toRat < -1 ∨ 1 < v.toRat) →
          (run_iteration lib env s outputs).2.output i = Float32.negOne) ∧
        (¬ (v.isNaN = true ∨ v.isInf = true ∨ v.toRat < -1 ∨ 1 < v.toRat) →
          (run_iteration lib env s outputs).2.output i = v)) ∧
    (clamp_value Float32.nan = Float32.negOne ∧
      clamp_value Float32.posInf = Float32.negOne ∧
      clamp_value Float32.negInf = Float32.negOne ∧
      clamp_value Float32.half = Float32.half ∧
      clamp_value Float32.twoPointThree = Float32.negOne ∧
      clamp_value Float32.five = Float32.negOne ∧
      clamp_value Float32.negFive = Float32.negOne) := by
  rw [run_iteration_outputs lib env s outputs m hm hret]
  refine ⟨?_, ?_, by decide⟩
  · rw [clamp_outputs_noutputs]
  · intro i v hv
    have hlt : i < (lib.mix m (control_callback (fetch_step env s)._controls) 8).length :=
      (List.getElem?_eq_some_iff.mp hv).1
    have hval : write_outputs (lib.mix m (control_callback (fetch_step env s)._controls) 8)
        outputs.output i = v := by
      simp [write_outputs, List.getD, hv]
    have hout : (clamp_outputs
        { timestamp := env.hrt_absolute_time,
          noutputs := (lib.mix m (control_callback (fetch_step env s)._controls) 8).length,
          output := write_outputs (lib.mix m (control_callback (fetch_step env s)._controls) 8)
            outputs.output }).output i = clamp_value v := by
      rw [clamp_outputs_output]
      simp only [hlt, if_true, hval]
    rw [hout]
    refine ⟨rfl, ?_, ?_⟩
    · intro hbad
      have := (out_of_band_iff v).mpr hbad
      simp [clamp_value, this]
    · intro hgood
      have : out_of_band v = false := by
        cases h : out_of_band v
        · rfl
        · exact absurd ((out_of_band_iff v).mp h) hgood
      simp [clamp_value, this]

/-- C1, at a concrete pass: the mixer of `exLib` produces 0.5 (its first
input, just copied from the message), a NaN and 2.3; the stored outputs are
0.5, -1.0 and -1.0. -/
theorem safety_clamp_every_channel_witness :
    (exNode._mixers = some () ∧ 0 < (poll_step exEnv exNode).1) ∧
    (run_iteration exLib exEnv exNode exOutputs).2.noutputs = 3 ∧
    (run_iteration exLib exEnv exNode exOutputs).2.output 0 = Float32.half ∧
    (run_iteration exLib exEnv exNode exOutputs).2.output 1 = Float32.negOne ∧
    (run_iteration exLib exEnv exNode exOutputs).2.output 2 = Float32.negOne := by
  have hm : exNode._mixers = some () := rfl
  have hret : 0 < (poll_step exEnv exNode).1 := by decide
  have h := safety_clamp_every_channel exLib exEnv exNode exOutputs () hm hret
  refine ⟨⟨hm, hret⟩, h.1, ?_, ?_, ?_⟩
  · exact (h.2.1 0 Float32.half (by decide)).2.2 (by
      rw [toRat_half]; simp [Float32.isNaN, Float32.isInf, Float32.half]; norm_num)
  · exact (h.2.1 1 Float32.nan rfl).2.1 (Or.inl (by decide))
  · exact (h.2.1 2 Float32.twoPointThree rfl).2.1 (Or.inr (Or.inr (Or.inr (by
      rw [toRat_twoPointThree]; norm_num))))

/-! ## C8: arming -/

/-- The arm update of the loop stores `armed AND NOT lockdown` in `_is_armed`,
for every node and every armed-state record; a pass of the loop with an
updated record performs this update. -/
theorem arm_update_is_armed {M : Type} (s : UavcanNode M) (rec : actuator_armed_s)
    (env : TickEnv) :
    (arm_update s rec).node._is_armed = (rec.armed && !rec.lockdown) ∧
    (arm_update s { armed := true, lockdown := true }).node._is_armed = false ∧
    (arm_update s { armed := true, lockdown := false }).node._is_armed = true ∧
    (env.armed_updated = true →
      (run_tail env s)._is_armed = (env.armed_msg.armed && !env.armed_msg.lockdown)) ∧
    (env.armed_updated = false → (run_tail env s)._is_armed = s._is_armed) := by
  have h0 : ∀ (t : UavcanNode M) (a : Bool), (arm_actuators t a).node._is_armed = a := by
    intro t a
    unfold arm_actuators
    dsimp only
    split <;> rfl
  refine ⟨h0 _ _, h0 _ _, h0 _ _, ?_, ?_⟩
  · intro h
    unfold run_tail
    simp only [h, if_true]
    split <;> exact h0 _ _
  · intro h
    unfold run_tail
    simp only [h]
    split <;> rfl

/-- Whether or not the armed value changes, `arm_actuators` returns `OK`,
makes no external call and leaves every member but `_is_armed` as it was:
the value stored before is the only thing that differs between a call that
changes the state and one that does not. -/
theorem arm_actuators_same_result {M : Type} (s : UavcanNode M) (arm : Bool) :
    (arm_actuators s arm).ret = OK ∧
    (arm_actuators s arm).node.calls = s.calls ∧
    (arm_actuators s arm).node = { s with _is_armed := arm } := by
  unfold arm_actuators
  dsimp only
  refine ⟨rfl, ?_, ?_⟩ <;> split <;> rfl

/-- C8, the failing input: from the disarmed node `exNode` the loop performs
the arm updates (true,false), (true,true), (true,true).  The stored
`_is_armed` is true, false, false, as the claim says.  The second update
changes the armed value and the third does not, yet both return `OK`, both
leave the trace of external calls without any entry, and the third leaves the
node exactly as the second did: no change is reported on the second
update. -/
theorem arm_change_not_reported :
    exNode._is_armed = false ∧
    exArmed._is_armed = true ∧
    exLocked._is_armed = false ∧
    (arm_update exLocked { armed := true, lockdown := true }).node._is_armed = false ∧
    (arm_update exArmed { armed := true, lockdown := true }).ret = OK ∧
    (arm_update exLocked { armed := true, lockdown := true }).ret = OK ∧
    exNode.calls = [] ∧
    (arm_update exArmed { armed := true, lockdown := true }).node.calls = [] ∧
    (arm_update exLocked { armed := true, lockdown := true }).node.calls = [] ∧
    (arm_update exLocked { armed := true, lockdown := true }).node = exLocked := by
  refine ⟨rfl, rfl, rfl, rfl, rfl, rfl, rfl, rfl, rfl, rfl⟩

/-! ## C4: loading a mixer buffer that is rejected -/

/-- C4: when `load_from_buf` reports failure on the mixer object that
`MIXERIOCLOADBUF` works on, the command returns an error (`-EINVAL`, or
`-ENOMEM` when no object could be allocated), no mixer is active afterwards
and the requirement bitmask is 0, whatever the node was before. -/
theorem loadbuf_failure_clears {M : Type} (lib : MixerLib M) (s : UavcanNode M)
    (buf : List Char)
    (hfail : ∀ m, loadbuf_mixer lib s = some m →
      (lib.load_from_buf m buf (strnlen buf 1024)).1 ≠ 0) :
    (pwm_ioctl lib s IoctlCmd.MIXERIOCLOADBUF buf).ret < 0 ∧
    (pwm_ioctl lib s IoctlCmd.MIXERIOCLOADBUF buf).ret ≠ OK ∧
    ((loadbuf_mixer lib s).isSome = true →
      (pwm_ioctl lib s IoctlCmd.MIXERIOCLOADBUF buf).ret = -EINVAL) ∧
    (pwm_ioctl lib s IoctlCmd.MIXERIOCLOADBUF buf).node._mixers = none ∧
    (pwm_ioctl lib s IoctlCmd.MIXERIOCLOADBUF buf).node._groups_required = 0 := by
  unfold pwm_ioctl
  dsimp only
  cases hmx : loadbuf_mixer lib s with
  | none => simp [ENOMEM, OK]
  | some m =>
    have h := hfail m hmx
    simp [h, EINVAL, OK]

/-- C4, at a concrete call: the node `exNode` has a mixer and requires group
0; a buffer that the library rejects leaves no mixer and requirement 0. -/
theorem loadbuf_failure_clears_witness :
    (∀ m, loadbuf_mixer exRejectLib exNode = some m →
      (exRejectLib.load_from_buf m [Char.ofNat 88] (strnlen [Char.ofNat 88] 1024)).1 ≠ 0) ∧
    exNode._mixers = some () ∧ exNode._groups_required = 1 ∧
    (pwm_ioctl exRejectLib exNode IoctlCmd.MIXERIOCLOADBUF [Char.ofNat 88]).ret = -22 ∧
    (pwm_ioctl exRejectLib exNode IoctlCmd.MIXERIOCLOADBUF [Char.ofNat 88]).node._mixers = none ∧
    (pwm_ioctl exRejectLib exNode IoctlCmd.MIXERIOCLOADBUF [Char.ofNat 88]).node._groups_required
      = 0 := by
  have hyp : ∀ m, loadbuf_mixer exRejectLib exNode = some m →
      (exRejectLib.load_from_buf m [Char.ofNat 88] (strnlen [Char.ofNat 88] 1024)).1 ≠ 0 := by
    intro m _
    cases m
    decide
  have h := loadbuf_failure_clears exRejectLib exNode [Char.ofNat 88] hyp
  exact ⟨hyp, rfl, rfl, h.2.2.1 rfl, h.2.2.2.1, h.2.2.2.2⟩

/-! ## C7: failures of `start` -/

/-- The failures of `start` before the task is spawned leave no instance and
return the code of the failing step: the CAN driver code, `-1` for a failed
allocation, the node initialisation code. -/
theorem start_early_failures {M : Type} (env : StartEnv M) (g : Globals M)
    (node_id : Int) (bitrate : Nat) (hnone : g._instance = none) :
    (g.can_initialized = false ∧ env.can_init bitrate < 0 →
      UavcanNode.start env g node_id bitrate = (env.can_init bitrate, g)) ∧
    (¬ (g.can_initialized = false ∧ env.can_init bitrate < 0) → env.alloc = none →
      (UavcanNode.start env g node_id bitrate).1 = -1 ∧
      (UavcanNode.start env g node_id bitrate).2._instance = none) ∧
    (¬ (g.can_initialized = false ∧ env.can_init bitrate < 0) → env.alloc ≠ none →
      UavcanNode.init env node_id < 0 →
      (UavcanNode.start env g node_id bitrate).1 = UavcanNode.init env node_id ∧
      (UavcanNode.start env g node_id bitrate).2._instance = none) := by
  refine ⟨?_, ?_, ?_⟩
  · intro h
    unfold UavcanNode.start
    rw [hnone]
    simp only [h, and_self, if_true]
  · intro h ha
    unfold UavcanNode.start
    rw [hnone]
    simp only [h, if_false, ha]
    constructor <;> first | rfl | trivial
  · intro h ha hi
    unfold UavcanNode.start
    rw [hnone]
    cases hal : env.alloc with
    | none => exact absurd hal ha
    | some raw =>
      simp only [h, if_false, hi, if_true]
      constructor <;> first | rfl | trivial

/-- C7, the failing path: when every step succeeds except the spawning of the
task, `start` returns `-errno` (here -12) and the instance stays in place; a
second `start`, in which every step would succeed, is rejected with -1 as
already started. -/
theorem start_spawn_failure_keeps_instance :
    exFresh._instance = none ∧
    (UavcanNode.start exSpawnFails exFresh 1 1000000).1 = -12 ∧
    (UavcanNode.start exSpawnFails exFresh 1 1000000).2._instance.isSome = true ∧
    (UavcanNode.start exStartOk (UavcanNode.start exSpawnFails exFresh 1 1000000).2
      1 1000000).1 = -1 ∧
    (UavcanNode.start exStartOk exFresh 1 1000000).1 = 0 := by
  refine ⟨rfl, by decide, by decide, by decide, by decide⟩

/-! ## C6: the bitrate handed to `start` -/

/-- The conversion to `unsigned` of a number does not depend on its reduction
into the range of a 32-bit `long`: a wider `long` gives the same bitrate. -/
theorem to_unsigned_wrap_int32 (v : Int) : to_unsigned (wrap_int32 v) = to_unsigned v := by
  unfold to_unsigned wrap_int32
  congr 1
  omega

/-- The numbers that fit a 32-bit signed type are read as they are written. -/
theorem wrap_int32_of_fits (v : Int) (h1 : -2147483648 ≤ v) (h2 : v ≤ 2147483647) :
    wrap_int32 v = v := by
  unfold wrap_int32
  omega

/-- A text beyond the range of `int` is read modulo `2 ^ 32`: "4294967297" is
read as 1, a valid node identifier, and the node is started. -/
theorem atoi_beyond_int :
    atoi "4294967297" = 1 ∧ atol "4294967297" = 1 ∧ atol "2147483647" = 2147483647 ∧
    atol "-2147483648" = -2147483648 ∧
    uavcan_main ["uavcan", "start", "4294967297"] = MainOutcome.start 1 1000000 := by
  refine ⟨by decide, by decide, by decide, by decide, by decide⟩

/-- The bitrate that `uavcan_main` hands to `start` for a valid node
identifier: the default when the argument is missing or converts to the
unsigned value 0, else the argument converted to `unsigned`. -/
theorem uavcan_main_bitrate (name id : String) (rest : List String)
    (hid : ¬ (atoi id < 0 ∨ atoi id > NodeID_Max ∨ NodeID_isUnicast (atoi id) = false)) :
    uavcan_main [name, "start", id] = MainOutcome.start (atoi id) DEFAULT_CAN_BITRATE ∧
    ∀ rate : String,
      uavcan_main (name :: "start" :: id :: rate :: rest) =
        MainOutcome.start (atoi id)
          (if to_unsigned (atol rate) = 0 then DEFAULT_CAN_BITRATE
           else to_unsigned (atol rate)) := by
  constructor
  · simp [uavcan_main, hid]
  · intro rate
    simp [uavcan_main, hid]
    rw [if_neg (by omega), if_neg (by omega)]

/-- C6, the failing input: for `uavcan start 1 -5` the bitrate argument parses
to -5, a negative number, and the bitrate handed to `start` is 4294967291,
not the default 1000000.  Omitted, zero and positive arguments behave as
described. -/
theorem uavcan_main_negative_bitrate :
    atol "-5" = -5 ∧
    uavcan_main ["uavcan", "start", "1", "-5"] = MainOutcome.start 1 4294967291 ∧
    uavcan_main ["uavcan", "start", "1"] = MainOutcome.start 1 1000000 ∧
    uavcan_main ["uavcan", "start", "1", "0"] = MainOutcome.start 1 1000000 ∧
    uavcan_main ["uavcan", "start", "1", "500000"] = MainOutcome.start 1 500000 := by
  refine ⟨by decide, by decide, by decide, by decide, by decide⟩

/-! ## C2, C3, C10: reconciliation of the subscriptions -/

/-- C2: from a node in which the handle of every group is valid exactly when
its bit is set in the subscribed bitmask, one reconciliation step in which
every acquisition yields a valid handle leaves the subscribed bitmask equal
to the requirement bitmask and, for every group index, the handle valid
exactly when the bit of the group is set in the requirement bitmask. -/
theorem reconcile_converges {M : Type} (acquire : Nat → Int) (s : UavcanNode M)
    (hcons : ∀ i, i < NUM_ACTUATOR_CONTROL_GROUPS →
      (s._control_subs i > 0 ↔ s._groups_subscribed.testBit i = true))
    (hacq : ∀ i, i < NUM_ACTUATOR_CONTROL_GROUPS → acquire i > 0) :
    (reconcile acquire s)._groups_subscribed = s._groups_required ∧
    (reconcile acquire s)._groups_required = s._groups_required ∧
    ∀ i, i < NUM_ACTUATOR_CONTROL_GROUPS →
      ((reconcile acquire s)._control_subs i > 0 ↔ s._groups_required.testBit i = true) :=
  ⟨reconcile_subscribed acquire s, reconcile_required acquire s,
    reconcile_valid_iff acquire s hcons hacq⟩

/-- C2, at a concrete node: group 0 is subscribed under handle 3 and groups 1
and 2 become required instead; after the step the subscribed bitmask is 6,
the handle of group 0 is released and groups 1 and 2 hold the new handles. -/
theorem reconcile_converges_witness :
    ((∀ i, i < NUM_ACTUATOR_CONTROL_GROUPS →
        (exSwitch._control_subs i > 0 ↔ exSwitch._groups_subscribed.testBit i = true)) ∧
      (∀ i, i < NUM_ACTUATOR_CONTROL_GROUPS → exEnv.orb_subscribe i > 0)) ∧
    ((reconcile exEnv.orb_subscribe exSwitch)._groups_subscribed = exSwitch._groups_required ∧
      (reconcile exEnv.orb_subscribe exSwitch)._groups_required = exSwitch._groups_required ∧
      ∀ i, i < NUM_ACTUATOR_CONTROL_GROUPS →
        ((reconcile exEnv.orb_subscribe exSwitch)._control_subs i > 0 ↔
          exSwitch._groups_required.testBit i = true)) ∧
    (reconcile exEnv.orb_subscribe exSwitch)._groups_subscribed = 6 ∧
    (reconcile exEnv.orb_subscribe exSwitch)._control_subs 0 = -1 ∧
    (reconcile exEnv.orb_subscribe exSwitch)._control_subs 1 = 4 ∧
    (reconcile exEnv.orb_subscribe exSwitch)._control_subs 2 = 5 ∧
    (reconcile exEnv.orb_subscribe exSwitch)._control_subs 3 = -1 :=
  ⟨⟨by decide, by decide⟩,
    reconcile_converges exEnv.orb_subscribe exSwitch (by decide) (by decide),
    by decide, by decide, by decide, by decide, by decide⟩

/-- C3, as stated, fails: the node `exHigh` has nothing subscribed, no valid
handle and an empty poll set, and its requirement bitmask has only bit 4 set.
Every acquisition would succeed.  After the reconciliation step the
subscribed bitmask is 16, with one set bit, and the poll set that
`subscribe()` built is empty. -/
theorem poll_set_size_counterexample :
    exHigh._groups_subscribed = 0 ∧ exHigh._poll_fds_num = 0 ∧
    (∀ i, i < NUM_ACTUATOR_CONTROL_GROUPS → ¬ exHigh._control_subs i > 0) ∧
    (∀ i, i < NUM_ACTUATOR_CONTROL_GROUPS → exEnv.orb_subscribe i > 0) ∧
    (reconcile exEnv.orb_subscribe exHigh)._groups_subscribed = 16 ∧
    popcount (reconcile exEnv.orb_subscribe exHigh)._groups_subscribed = 1 ∧
    (reconcile exEnv.orb_subscribe exHigh)._poll_fds_num = 0 ∧
    (reconcile exEnv.orb_subscribe exHigh)._poll_fds_num ≠
      popcount (reconcile exEnv.orb_subscribe exHigh)._groups_subscribed := by
  refine ⟨rfl, rfl, by decide, by decide, by decide, by decide, by decide, by decide⟩

/-- C3, amended: when the requirement bitmask has bits only for group indices
below `NUM_ACTUATOR_CONTROL_GROUPS`, the handle of every group is valid
exactly when its bit is set in the subscribed bitmask, and the poll set
already lists the valid handles in case the bitmasks agree (so that
`subscribe()` is not called), then after a reconciliation step in which every
acquisition yields a valid handle the size of the poll set is the number of
set bits of the subscribed bitmask and its entries are the handles of the
subscribed groups in ascending group order. -/
theorem reconcile_poll_set {M : Type} (acquire : Nat → Int) (s : UavcanNode M)
    (hreq : s._groups_required < 2 ^ NUM_ACTUATOR_CONTROL_GROUPS)
    (hcons : ∀ i, i < NUM_ACTUATOR_CONTROL_GROUPS →
      (s._control_subs i > 0 ↔ s._groups_subscribed.testBit i = true))
    (hacq : ∀ i, i < NUM_ACTUATOR_CONTROL_GROUPS → acquire i > 0)
    (hset : s._groups_subscribed ≠ s._groups_required ∨
      poll_entries s = valid_handles s._control_subs NUM_ACTUATOR_CONTROL_GROUPS) :
    (reconcile acquire s)._poll_fds_num = popcount (reconcile acquire s)._groups_subscribed ∧
    poll_entries (reconcile acquire s) =
      ((List.range NUM_ACTUATOR_CONTROL_GROUPS).filter
        (fun i => (reconcile acquire s)._groups_subscribed.testBit i)).map
        (reconcile acquire s)._control_subs := by
  have hsub := reconcile_subscribed acquire s
  have hent := reconcile_entries acquire s hset
  have hbits := valid_handles_of_bits (reconcile acquire s)._control_subs s._groups_required
    NUM_ACTUATOR_CONTROL_GROUPS (reconcile_valid_iff acquire s hcons hacq)
  rw [hsub]
  constructor
  · rw [← poll_entries_length, hent, hbits, List.length_map, popcount_of_small _ hreq]
  · rw [hent, hbits]

/-- C3 amended, at a concrete node: from `exSwitch` the step builds a poll set
of size 2 holding the handles 4 and 5 of groups 1 and 2. -/
theorem reconcile_poll_set_witness :
    (exSwitch._groups_required < 2 ^ NUM_ACTUATOR_CONTROL_GROUPS ∧
      (∀ i, i < NUM_ACTUATOR_CONTROL_GROUPS →
        (exSwitch._control_subs i > 0 ↔ exSwitch._groups_subscribed.testBit i = true)) ∧
      (∀ i, i < NUM_ACTUATOR_CONTROL_GROUPS → exEnv.orb_subscribe i > 0) ∧
      (exSwitch._groups_subscribed ≠ exSwitch._groups_required ∨
        poll_entries exSwitch =
          valid_handles exSwitch._control_subs NUM_ACTUATOR_CONTROL_GROUPS)) ∧
    ((reconcile exEnv.orb_subscribe exSwitch)._poll_fds_num =
        popcount (reconcile exEnv.orb_subscribe exSwitch)._groups_subscribed ∧
      poll_entries (reconcile exEnv.orb_subscribe exSwitch) =
        ((List.range NUM_ACTUATOR_CONTROL_GROUPS).filter
          (fun i => (reconcile exEnv.orb_subscribe exSwitch)._groups_subscribed.testBit i)).map
          (reconcile exEnv.orb_subscribe exSwitch)._control_subs) ∧
    (reconcile exEnv.orb_subscribe exSwitch)._poll_fds_num = 2 ∧
    poll_entries (reconcile exEnv.orb_subscribe exSwitch) = [4, 5] :=
  ⟨⟨by decide, by decide, by decide, Or.inl (by decide)⟩,
    reconcile_poll_set exEnv.orb_subscribe exSwitch (by decide) (by decide) (by decide)
      (Or.inl (by decide)),
    by decide, by decide⟩

/-- C10: for every node and requirement bitmask, a second reconciliation step
right after a first one with the same requirement bitmask changes nothing:
the trace of external calls gains no `orb_subscribe` and no `close` (it is
unchanged), and every group handle, the poll set and the bitmasks are as the
first step left them. -/
theorem reconcile_twice {M : Type} (acquire1 acquire2 : Nat → Int) (s : UavcanNode M)
    (req : Nat) :
    reconcile acquire2
        { reconcile acquire1 { s with _groups_required := req } with _groups_required := req } =
      reconcile acquire1 { s with _groups_required := req } ∧
    (reconcile acquire2
        { reconcile acquire1 { s with _groups_required := req } with
          _groups_required := req }).calls =
      (reconcile acquire1 { s with _groups_required := req }).calls ∧
    (reconcile acquire2
        { reconcile acquire1 { s with _groups_required := req } with
          _groups_required := req })._control_subs =
      (reconcile acquire1 { s with _groups_required := req })._control_subs := by
  have hsub : (reconcile acquire1 { s with _groups_required := req })._groups_subscribed = req :=
    reconcile_subscribed acquire1 { s with _groups_required := req }
  have hreq : (reconcile acquire1 { s with _groups_required := req })._groups_required = req :=
    reconcile_required acquire1 { s with _groups_required := req }
  have hsame : ({ reconcile acquire1 { s with _groups_required := req } with
      _groups_required := req } : UavcanNode M) =
      reconcile acquire1 { s with _groups_required := req } := by
    cases h : reconcile acquire1 { s with _groups_required := req }
    rw [h] at hreq
    simp only at hreq
    simp [hreq]
  rw [hsame]
  have hfix : reconcile acquire2 (reconcile acquire1 { s with _groups_required := req }) =
      reconcile acquire1 { s with _groups_required := req } := by
    generalize reconcile acquire1 { s with _groups_required := req } = t at hsub hreq
    unfold reconcile
    rw [if_neg]
    rw [hsub, hreq]
    exact fun h => h rfl
  rw [hfix]
  exact ⟨rfl, rfl, rfl⟩

/-! ## C9: the input loop overwrites exactly the ready groups -/

/-- C9: in a pass whose poll set was built by `subscribe()` (it is rebuilt in
this pass, or it lists the valid handles in ascending group order), the entry
at the poll index of a group with a valid handle lies in the poll set and
holds the handle of that group; when `poll` flags entries, the buffered
control vector of group `i` after the pass is the new message if group `i`
has a valid handle and its own entry is flagged readable, and is the prior
vector in every other case; when `poll` fails, every buffered vector is the
prior one. -/
theorem fetch_overwrites_ready_groups {M : Type} (lib : MixerLib M) (env : TickEnv)
    (s : UavcanNode M) (outputs : actuator_outputs_s)
    (hset : s._groups_subscribed ≠ s._groups_required ∨
      poll_entries s = valid_handles s._control_subs NUM_ACTUATOR_CONTROL_GROUPS) :
    (∀ i, i < NUM_ACTUATOR_CONTROL_GROUPS →
      (reconcile env.orb_subscribe s)._control_subs i > 0 →
      poll_index (reconcile env.orb_subscribe s)._control_subs i <
          (reconcile env.orb_subscribe s)._poll_fds_num ∧
        ((reconcile env.orb_subscribe s)._poll_fds
          (poll_index (reconcile env.orb_subscribe s)._control_subs i)).fd =
          (reconcile env.orb_subscribe s)._control_subs i) ∧
    (∀ rev, env.poll = PollOutcome.done rev → ∀ i,
      (run_iteration lib env s outputs).1._controls i =
        if i < NUM_ACTUATOR_CONTROL_GROUPS ∧
            (reconcile env.orb_subscribe s)._control_subs i > 0 ∧
            rev (poll_index (reconcile env.orb_subscribe s)._control_subs i) &&& POLLIN ≠ 0
        then env.orb_copy i
        else s._controls i) ∧
    (∀ e, env.poll = PollOutcome.error e →
      (run_iteration lib env s outputs).1._controls = s._controls) := by
  have hent := reconcile_entries env.orb_subscribe s hset
  have hentry := fun i hi hv =>
    entry_of_group (reconcile env.orb_subscribe s) NUM_ACTUATOR_CONTROL_GROUPS i hent hi hv
  refine ⟨hentry, ?_, ?_⟩
  · intro rev hrev i
    have hsubs : (poll_step env s).2._control_subs =
        (reconcile env.orb_subscribe s)._control_subs := rfl
    have hstep : ∀ j, (fetch_step env s)._controls j =
        if j < NUM_ACTUATOR_CONTROL_GROUPS ∧
            (reconcile env.orb_subscribe s)._control_subs j > 0 ∧
            ((poll_step env s).2._poll_fds
              (poll_index (reconcile env.orb_subscribe s)._control_subs j)).revents &&& POLLIN ≠ 0
        then env.orb_copy j
        else s._controls j := by
      intro j
      unfold fetch_step
      rw [fetch_loop_controls, hsubs, poll_step_controls]
    by_cases hc : i < NUM_ACTUATOR_CONTROL_GROUPS ∧
        (reconcile env.orb_subscribe s)._control_subs i > 0 ∧
        rev (poll_index (reconcile env.orb_subscribe s)._control_subs i) &&& POLLIN ≠ 0
    · rw [if_pos hc]
      obtain ⟨hi, hv, hready⟩ := hc
      have hk := (hentry i hi hv).1
      have hne : rev (poll_index (reconcile env.orb_subscribe s)._control_subs i) ≠ 0 := by
        intro h0
        rw [h0] at hready
        simp at hready
      have hpos : 0 < (poll_step env s).1 := by
        rw [poll_step_ret_done env s rev hrev]
        exact_mod_cast poll_count_pos rev _ _ hk hne
      rw [run_iteration_controls_pos lib env s outputs hpos, hstep,
        poll_step_revents env s rev hrev _ hk]
      rw [if_pos ⟨hi, hv, hready⟩]
    · rw [if_neg hc]
      by_cases hpos : 0 < (poll_step env s).1
      · rw [run_iteration_controls_pos lib env s outputs hpos, hstep]
        rw [if_neg]
        rintro ⟨hi, hv, hready⟩
        rw [poll_step_revents env s rev hrev _ (hentry i hi hv).1] at hready
        exact hc ⟨hi, hv, hready⟩
      · rw [run_iteration_controls_nonpos lib env s outputs hpos]
  · intro e he
    have hneg : ¬ 0 < (poll_step env s).1 := by
      rw [poll_step_ret_error env s e he]
      decide
    exact run_iteration_controls_nonpos lib env s outputs hneg

/-- C9, at a concrete pass: only group 0 is required, nothing is subscribed
yet, and `poll` flags the one entry; after the pass the poll set holds exactly
the handle 3 of group 0, the buffer of group 0 holds the message and the
buffer of group 1 is the prior one. -/
theorem fetch_overwrites_ready_groups_witness :
    (exIdle._groups_subscribed ≠ exIdle._groups_required ∨
      poll_entries exIdle = valid_handles exIdle._control_subs NUM_ACTUATOR_CONTROL_GROUPS) ∧
    (run_iteration exLib exOneMsgEnv exIdle exOutputs).1._poll_fds_num = 1 ∧
    poll_entries (run_iteration exLib exOneMsgEnv exIdle exOutputs).1 = [3] ∧
    (run_iteration exLib exOneMsgEnv exIdle exOutputs).1._controls 0 = exMsg ∧
    (run_iteration exLib exOneMsgEnv exIdle exOutputs).1._controls 1 = exIdle._controls 1 := by
  have hyp : exIdle._groups_subscribed ≠ exIdle._groups_required ∨
      poll_entries exIdle = valid_handles exIdle._control_subs NUM_ACTUATOR_CONTROL_GROUPS :=
    Or.inl (by decide)
  have h := fetch_overwrites_ready_groups exLib exOneMsgEnv exIdle exOutputs hyp
  refine ⟨hyp, by decide, by decide, ?_, ?_⟩
  · rw [h.2.1 _ rfl 0]
    exact if_pos (by decide)
  · rw [h.2.1 _ rfl 1]
    exact if_neg (by decide)

/-! ## C5: mixing and the result of `poll` -/

/-- In a pass in which a mixer is loaded and `poll` returns a positive count
the mixing function is called once. -/
theorem run_iteration_pos_calls {M : Type} (lib : MixerLib M) (env : TickEnv)
    (s : UavcanNode M) (o : actuator_outputs_s) (m : M)
    (hm : s._mixers = some m) (h : 0 < (poll_step env s).1) :
    mix_calls (run_iteration lib env s o).1.calls = mix_calls s.calls + 1 := by
  have h1 : ¬ (poll_step env s).1 < 0 := by omega
  have h2 : ¬ (poll_step env s).1 = 0 := by omega
  have h3 : (fetch_step env s)._mixers = some m := by rw [fetch_step_mixers, hm]
  unfold run_iteration
  simp only [h1, h2, if_false]
  rw [run_tail_mix_calls]
  unfold mix_block
  rw [h3]
  dsimp only
  rw [← fetch_step_mix_calls env s]
  simp [mix_calls, List.countP_append]

/-- C5, the failing input: the node `exNode` has a mixer loaded and `poll`
times out (returns 0).  The pass makes no call of the mixing function and
stores no output, although the mixer, invoked on the buffered inputs, would
produce three values; with ready input the same node mixes once and stores
three outputs. -/
theorem timeout_skips_mixing :
    exNode._mixers = some () ∧
    (poll_step exTimeoutEnv exNode).1 = 0 ∧
    mix_calls exNode.calls = 0 ∧
    mix_calls (run_iteration exLib exTimeoutEnv exNode exOutputs).1.calls = 0 ∧
    (run_iteration exLib exTimeoutEnv exNode exOutputs).2.noutputs = 0 ∧
    (exLib.mix () (control_callback (poll_step exTimeoutEnv exNode).2._controls) 8).length = 3 ∧
    0 < (poll_step exEnv exNode).1 ∧
    mix_calls (run_iteration exLib exEnv exNode exOutputs).1.calls = 1 ∧
    (run_iteration exLib exEnv exNode exOutputs).2.noutputs = 3 := by
  refine ⟨rfl, by decide, by decide, by decide, by decide, by decide, by decide, by decide,
    by decide⟩

end Uavcan
